import Mathlib

/-!
Contact monitoring for tracked vehicles.

A shallow embedding of `ChTrackContactManager.cpp`
(`ChTrackContactManager`, `ChTrackCollisionManager`, `ChTrackCustomContact`)
and the properties of its observation / interception / force-injection
pipeline.

Conventions of the embedding:

* a scalar (`double`) is the rational number it stands for: every finite
  double is a rational, two finite doubles compare as these rationals do, and
  a literal such as `0.8` denotes the double nearest to it; the results of
  arithmetic done outside the translated file (the frame transforms of a body)
  are taken as given, with whatever rounding they carry, and the arithmetic of
  the file itself (a negation, the torque sum) is stated over exact arithmetic;
* an object address is a `Nat`; a `shared_ptr` / raw pointer that may be null
  is an `Option`;
* a function that dereferences a handle returns `Option`: `none` stands for the
  dereference of a null handle (undefined behaviour in the source);
* member state is passed explicitly: a method `T::f(args)` becomes
  `f (self : T) args` returning the new `T`.
-/

namespace chrono

/-! ## Vectors and matrices -/

/-- Three-component vector `ChVector<>`, over exact arithmetic. -/
structure ChVector where
  x : ℚ
  y : ℚ
  z : ℚ
deriving DecidableEq

namespace ChVector

/-- The vector `ChVector<>(0)`. -/
def zero : ChVector := ⟨0, 0, 0⟩

instance : Zero ChVector := ⟨zero⟩

instance : Add ChVector := ⟨fun a b => ⟨a.x + b.x, a.y + b.y, a.z + b.z⟩⟩

instance : Sub ChVector := ⟨fun a b => ⟨a.x - b.x, a.y - b.y, a.z - b.z⟩⟩

instance : Neg ChVector := ⟨fun a => ⟨-a.x, -a.y, -a.z⟩⟩

instance : AddCommGroup ChVector where
  add_assoc a b c := by
    show ChVector.mk _ _ _ = ChVector.mk _ _ _
    congr 1 <;> apply add_assoc
  zero_add a := by
    show ChVector.mk _ _ _ = a
    cases a
    congr 1 <;> apply zero_add
  add_zero a := by
    show ChVector.mk _ _ _ = a
    cases a
    congr 1 <;> apply add_zero
  add_comm a b := by
    show ChVector.mk _ _ _ = ChVector.mk _ _ _
    congr 1 <;> apply add_comm
  neg_add_cancel a := by
    show ChVector.mk _ _ _ = ChVector.mk _ _ _
    congr 1 <;> apply neg_add_cancel
  sub_eq_add_neg a b := by
    show ChVector.mk _ _ _ = ChVector.mk _ _ _
    congr 1 <;> apply sub_eq_add_neg
  nsmul := nsmulRec
  zsmul := zsmulRec

/-- Cross product `a.Cross(b)`. -/
def Cross (a b : ChVector) : ChVector :=
  ⟨a.y * b.z - a.z * b.y, a.z * b.x - a.x * b.z, a.x * b.y - a.y * b.x⟩

/-- Test `IsNull()`: all three components are zero. -/
def IsNull (a : ChVector) : Bool :=
  decide (a.x = 0) && decide (a.y = 0) && decide (a.z = 0)

end ChVector

/-- A 3x3 matrix `ChMatrix33<>`, stored by rows. -/
structure ChMatrix33 where
  r0 : ChVector
  r1 : ChVector
  r2 : ChVector
deriving DecidableEq

namespace ChMatrix33

/-- Matrix-vector product `A * v`. -/
def mulVec (A : ChMatrix33) (v : ChVector) : ChVector :=
  ⟨A.r0.x * v.x + A.r0.y * v.y + A.r0.z * v.z,
   A.r1.x * v.x + A.r1.y * v.y + A.r1.z * v.z,
   A.r2.x * v.x + A.r2.y * v.y + A.r2.z * v.z⟩

/-- The identity matrix. -/
def identity : ChMatrix33 := ⟨⟨1, 0, 0⟩, ⟨0, 1, 0⟩, ⟨0, 0, 1⟩⟩

end ChMatrix33

/-! ## Bodies and contactables -/

namespace vehicle

/-- Modelled from the spec: the `BodyID` role tags (declared in a header that
is not part of the translated file). The spec lists the roles
hull / sprocket / idler / wheel / shoe / unclassified. -/
inductive BodyID where
  | CHASSIS_BODY
  | SPROCKET_BODY
  | IDLER_BODY
  | WHEEL_BODY
  | SHOE_BODY
  | UNCLASSIFIED
deriving DecidableEq

end vehicle

/-- The state of a rigid body that this file reads: the position of its frame,
its identifier (role tag), and the two frame transforms. The frame class is
outside the translated file and its arithmetic is done in doubles, so the
transforms are not recomputed here: `dirToLocal d` is the vector that
`TransformDirectionParentToLocal(d)` returns on this body and `pointToLocal p`
the vector that `TransformPointParentToLocal(p)` returns, as computed, rounding
included. -/
structure ChBody where
  pos : ChVector
  identifier : vehicle.BodyID
  dirToLocal : ChVector → ChVector
  pointToLocal : ChVector → ChVector

namespace ChBody

/-- Accessor `GetPos()`. -/
def GetPos (b : ChBody) : ChVector := b.pos

/-- Accessor `GetIdentifier()`. -/
def GetIdentifier (b : ChBody) : vehicle.BodyID := b.identifier

/-- Modelled from the spec: the body's global-to-local direction conversion
(`TransformDirectionParentToLocal`, defined in the frame class outside the
translated file): the direction `d` expressed in the body's local frame, as the
body computes it. -/
def TransformDirectionParentToLocal (b : ChBody) (d : ChVector) : ChVector :=
  b.dirToLocal d

/-- Modelled from the spec: the body's global-to-local point conversion
(`TransformPointParentToLocal`, defined in the frame class outside the
translated file): the point `p` expressed in the body's local frame, as the
body computes it. -/
def TransformPointParentToLocal (b : ChBody) (p : ChVector) : ChVector :=
  b.pointToLocal p

end ChBody

/-- A `ChContactable*`: either a rigid body (identified by its address) or
some other kind of contactable object. -/
inductive ChContactable where
  | body (addr : Nat)
  | other (addr : Nat)
deriving DecidableEq

namespace ChContactable

/-- The cast `dynamic_cast<ChBody*>(contactable)`: the body address, or
`none` (null) when the contactable is not a rigid body. -/
def asBody : ChContactable → Option Nat
  | body a => some a
  | other _ => none

end ChContactable

/-- The rigid bodies of the system, by address: what a `ChBody*` points to. -/
abbrev BodyStore := Nat → ChBody

namespace vehicle

/-! ## ChTrackContactManager -/

/-- Modelled from the spec: the `TrackedCollisionFlag` bit masks selecting
the monitored parts (the enumeration is declared in a header that is not part
of the translated file); one bit per part. -/
def TrackedCollisionFlag.NONE : Nat := 0

/-- Modelled from the spec: hull (chassis) bit of `TrackedCollisionFlag`. -/
def TrackedCollisionFlag.CHASSIS : Nat := 1

/-- Modelled from the spec: left sprocket bit of `TrackedCollisionFlag`. -/
def TrackedCollisionFlag.SPROCKET_LEFT : Nat := 2

/-- Modelled from the spec: right sprocket bit of `TrackedCollisionFlag`. -/
def TrackedCollisionFlag.SPROCKET_RIGHT : Nat := 4

/-- Modelled from the spec: left idler bit of `TrackedCollisionFlag`. -/
def TrackedCollisionFlag.IDLER_LEFT : Nat := 8

/-- Modelled from the spec: right idler bit of `TrackedCollisionFlag`. -/
def TrackedCollisionFlag.IDLER_RIGHT : Nat := 16

/-- Modelled from the spec: left road-wheels bit of `TrackedCollisionFlag`
(not monitored by the contact manager). -/
def TrackedCollisionFlag.WHEELS_LEFT : Nat := 32

/-- Modelled from the spec: right road-wheels bit of `TrackedCollisionFlag`
(not monitored by the contact manager). -/
def TrackedCollisionFlag.WHEELS_RIGHT : Nat := 64

/-- Modelled from the spec: left shoe bit of `TrackedCollisionFlag`. -/
def TrackedCollisionFlag.SHOES_LEFT : Nat := 128

/-- Modelled from the spec: right shoe bit of `TrackedCollisionFlag`. -/
def TrackedCollisionFlag.SHOES_RIGHT : Nat := 256

/-- Modelled from the spec: the mask with every part bit set. -/
def TrackedCollisionFlag.ALL : Nat := 0xFFFF

/-- Which side of the vehicle (`VehicleSide`). -/
inductive VehicleSide where
  | LEFT
  | RIGHT
deriving DecidableEq

/-- The record `ContactInfo` pushed on a part contact list. -/
structure ContactInfo where
  m_point : ChVector
  m_csys : ChMatrix33
  m_force : ChVector
  m_torque : ChVector
deriving DecidableEq

/-- The arguments of one `OnReportContact` call: one resolved contact as the
engine reports it. -/
structure ReportedContact where
  pA : ChVector
  pB : ChVector
  plane_coord : ChMatrix33
  distance : ℚ
  eff_radius : ℚ
  react_forces : ChVector
  react_torques : ChVector
  modA : ChContactable
  modB : ChContactable
deriving DecidableEq

/-- One cell of the CSV log buffer. -/
inductive CsvCell where
  | real (v : ℚ)
  | size (n : Nat)
deriving DecidableEq

/-- The three cells written by `m_csv << vector`. -/
def CsvCell.ofVector (v : ChVector) : List CsvCell :=
  [CsvCell.real v.x, CsvCell.real v.y, CsvCell.real v.z]

/-- Member state of `ChTrackContactManager`. A part handle holds the address of
the part's body (what `m_chassis->GetBody().get()`,
`m_sprocket_L->GetGearBody().get()`, `m_idler_L->GetWheelBody().get()`,
`m_shoe_L->GetShoeBody().get()` evaluate to), or `none` for a null handle.
`m_csv` is the list of completed rows of the log buffer. -/
structure ChTrackContactManager where
  m_initialized : Bool
  m_flags : Nat
  m_collect : Bool
  m_shoe_index_L : Nat
  m_shoe_index_R : Nat
  m_chassis : Option Nat
  m_sprocket_L : Option Nat
  m_sprocket_R : Option Nat
  m_idler_L : Option Nat
  m_idler_R : Option Nat
  m_shoe_L : Option Nat
  m_shoe_R : Option Nat
  m_chassis_contacts : List ContactInfo
  m_sprocket_L_contacts : List ContactInfo
  m_sprocket_R_contacts : List ContactInfo
  m_shoe_L_contacts : List ContactInfo
  m_shoe_R_contacts : List ContactInfo
  m_idler_L_contacts : List ContactInfo
  m_idler_R_contacts : List ContactInfo
  m_csv : List (List CsvCell)
deriving DecidableEq

namespace ChTrackContactManager

/-- The constructor `ChTrackContactManager()`: nothing bound, no flag,
empty lists. -/
def new : ChTrackContactManager where
  m_initialized := false
  m_flags := 0
  m_collect := false
  m_shoe_index_L := 0
  m_shoe_index_R := 0
  m_chassis := none
  m_sprocket_L := none
  m_sprocket_R := none
  m_idler_L := none
  m_idler_R := none
  m_shoe_L := none
  m_shoe_R := none
  m_chassis_contacts := []
  m_sprocket_L_contacts := []
  m_sprocket_R_contacts := []
  m_shoe_L_contacts := []
  m_shoe_R_contacts := []
  m_idler_L_contacts := []
  m_idler_R_contacts := []
  m_csv := []

/-- Modelled from the spec: `IsFlagSet(val)` (an inline member declared in
the header): the bit mask `val` meets `m_flags`. -/
def IsFlagSet (m : ChTrackContactManager) (val : Nat) : Bool :=
  (m.m_flags &&& val) != 0

/-- The four assignments to `info` that precede every `push_back`. -/
def mkInfo (p : ChVector) (c : ReportedContact) : ContactInfo where
  m_point := p
  m_csys := c.plane_coord
  m_force := c.react_forces
  m_torque := c.react_torques

/-- The two `if`s of a hull / sprocket / idler block of `OnReportContact`:
test body A, then body B, against the part body `b`. -/
def pushMatching (b : Nat) (c : ReportedContact) (l : List ContactInfo) : List ContactInfo :=
  let l := if c.modA = ChContactable.body b then l ++ [mkInfo c.pA c] else l
  if c.modB = ChContactable.body b then l ++ [mkInfo c.pB c] else l

/-- The condition `modX == shoe->GetShoeBody().get() && modY != sprocket->GetGearBody().get()`
of a shoe block; the sprocket handle is dereferenced only when the first
conjunct holds. -/
def shoeCond (shoe sprocket : Option Nat) (modX modY : ChContactable) : Option Bool := do
  let s ← shoe
  if modX = ChContactable.body s then
    let g ← sprocket
    pure (decide (modY ≠ ChContactable.body g))
  else
    pure false

/-- The two `if`s of a shoe block of `OnReportContact`. -/
def pushShoe (shoe sprocket : Option Nat) (c : ReportedContact) (l : List ContactInfo) :
    Option (List ContactInfo) := do
  let cA ← shoeCond shoe sprocket c.modA c.modB
  let l := if cA then l ++ [mkInfo c.pA c] else l
  let cB ← shoeCond shoe sprocket c.modB c.modA
  pure (if cB then l ++ [mkInfo c.pB c] else l)

/-- The callback `OnReportContact`. Returns the new manager state and the
"continue" result, or `none` when a null handle is dereferenced. -/
def OnReportContact (m : ChTrackContactManager) (c : ReportedContact) :
    Option (ChTrackContactManager × Bool) :=
  -- Ignore contacts with zero force or positive separation.
  if 0 < c.distance ∨ c.react_forces.IsNull = true then
    some (m, true)
  else do
    -- Extract contacts on chassis.
    let m ← if m.IsFlagSet TrackedCollisionFlag.CHASSIS then do
        let b ← m.m_chassis
        pure { m with m_chassis_contacts := pushMatching b c m.m_chassis_contacts }
      else pure m
    -- Extract contacts on sprockets.
    let m ← if m.IsFlagSet TrackedCollisionFlag.SPROCKET_LEFT then do
        let b ← m.m_sprocket_L
        pure { m with m_sprocket_L_contacts := pushMatching b c m.m_sprocket_L_contacts }
      else pure m
    let m ← if m.IsFlagSet TrackedCollisionFlag.SPROCKET_RIGHT then do
        let b ← m.m_sprocket_R
        pure { m with m_sprocket_R_contacts := pushMatching b c m.m_sprocket_R_contacts }
      else pure m
    -- Extract contacts on track shoes (discard contacts with sprockets)
    let m ← if m.IsFlagSet TrackedCollisionFlag.SHOES_LEFT then do
        let l ← pushShoe m.m_shoe_L m.m_sprocket_L c m.m_shoe_L_contacts
        pure { m with m_shoe_L_contacts := l }
      else pure m
    let m ← if m.IsFlagSet TrackedCollisionFlag.SHOES_RIGHT then do
        let l ← pushShoe m.m_shoe_R m.m_sprocket_R c m.m_shoe_R_contacts
        pure { m with m_shoe_R_contacts := l }
      else pure m
    -- Extract contacts on idler wheels.
    let m ← if m.IsFlagSet TrackedCollisionFlag.IDLER_LEFT then do
        let b ← m.m_idler_L
        pure { m with m_idler_L_contacts := pushMatching b c m.m_idler_L_contacts }
      else pure m
    let m ← if m.IsFlagSet TrackedCollisionFlag.IDLER_RIGHT then do
        let b ← m.m_idler_R
        pure { m with m_idler_R_contacts := pushMatching b c m.m_idler_R_contacts }
      else pure m
    -- Continue scanning contacts
    pure (m, true)

/-- Modelled from the spec: the engine's traversal `ReportAllContacts`
(engine code outside the translated file): it hands every resolved contact, in
order, to the reporting callback and stops as soon as the callback does not
answer "continue". Returns the final manager state together with the contacts
that were handed to `OnReportContact`. -/
def ReportAllContacts :
    List ReportedContact → ChTrackContactManager →
      Option (ChTrackContactManager × List ReportedContact)
  | [], m => some (m, [])
  | c :: cs, m => do
    let r ← OnReportContact m c
    if r.2 then
      let r' ← ReportAllContacts cs r.1
      pure (r'.1, c :: r'.2)
    else
      pure (r.1, [c])

end ChTrackContactManager

/-- What `Process` reads of one track assembly: the gear body of its sprocket,
the wheel body of its idler, and the shoe bodies of its track shoes
(`GetNumTrackShoes()` is the length, `GetTrackShoe(i)` the `i`-th entry). -/
structure ChTrackAssembly where
  sprocket : Nat
  idler : Nat
  shoes : List Nat
deriving DecidableEq

/-- What `Process` reads of the vehicle: the chassis body, the two track
assemblies, the current time, the resolved contacts held by the contact
container of its system, and the current state of the bodies. -/
structure ChTrackedVehicle where
  chassis : Nat
  left : ChTrackAssembly
  right : ChTrackAssembly
  ChTime : ℚ
  contacts : List ReportedContact
  bodies : BodyStore

/-- Accessor `GetTrackAssembly(side)`. -/
def ChTrackedVehicle.GetTrackAssembly (v : ChTrackedVehicle) : VehicleSide → ChTrackAssembly
  | VehicleSide.LEFT => v.left
  | VehicleSide.RIGHT => v.right

/-- Result of one `Process` call: the new manager state and the contacts for
which the engine invoked `OnReportContact` during the call (empty when the
traversal was not started). -/
structure ProcessOutcome where
  manager : ChTrackContactManager
  reported : List ReportedContact
deriving DecidableEq

namespace ChTrackContactManager

/-- The first block of `Process`: bind the part handles if not already done. -/
def bindParts (m : ChTrackContactManager) (v : ChTrackedVehicle) : ChTrackContactManager :=
  if !m.m_initialized then
    let m := { m with m_chassis := some v.chassis }
    let m := { m with m_sprocket_L := some (v.GetTrackAssembly VehicleSide.LEFT).sprocket }
    let m := { m with m_sprocket_R := some (v.GetTrackAssembly VehicleSide.RIGHT).sprocket }
    let m :=
      if (v.GetTrackAssembly VehicleSide.LEFT).shoes.length > m.m_shoe_index_L ∧
          (v.GetTrackAssembly VehicleSide.RIGHT).shoes.length > m.m_shoe_index_R then
        let m := { m with m_shoe_L := (v.GetTrackAssembly VehicleSide.LEFT).shoes[m.m_shoe_index_L]? }
        { m with m_shoe_R := (v.GetTrackAssembly VehicleSide.RIGHT).shoes[m.m_shoe_index_R]? }
      else m
    let m := { m with m_idler_L := some (v.GetTrackAssembly VehicleSide.LEFT).idler }
    let m := { m with m_idler_R := some (v.GetTrackAssembly VehicleSide.RIGHT).idler }
    { m with m_initialized := true }
  else m

/-- The seven `clear()` calls of `Process`. -/
def clearLists (m : ChTrackContactManager) : ChTrackContactManager :=
  { m with
    m_chassis_contacts := []
    m_sprocket_L_contacts := []
    m_sprocket_R_contacts := []
    m_shoe_L_contacts := []
    m_shoe_R_contacts := []
    m_idler_L_contacts := []
    m_idler_R_contacts := [] }

/-- One `for (const auto& c : list) m_csv << part->body->TransformPointParentToLocal(c.m_point)`
loop: the part handle is dereferenced once per record. -/
def localPoints (bodies : BodyStore) (part : Option Nat) :
    List ContactInfo → Option (List CsvCell)
  | [] => some []
  | c :: cs => do
    let b ← part
    let rest ← localPoints bodies part cs
    pure (CsvCell.ofVector ((bodies b).TransformPointParentToLocal c.m_point) ++ rest)

/-- The guarded loop `if (m_shoe) { for ... }` of the two shoe lists. -/
def localPointsGuarded (bodies : BodyStore) (part : Option Nat) (l : List ContactInfo) :
    Option (List CsvCell) :=
  match part with
  | some b => localPoints bodies (some b) l
  | none => some []

/-- The `if (m_collect) { ... }` block of `Process`: collect the snapshot row. -/
def collect (m : ChTrackContactManager) (v : ChTrackedVehicle) : Option ChTrackContactManager :=
  if m.m_collect then
    -- Get number of contacts in all lists
    let n_chassis := m.m_chassis_contacts.length
    let n_sprocket_L := m.m_sprocket_L_contacts.length
    let n_sprocket_R := m.m_sprocket_R_contacts.length
    let n_idler_L := m.m_idler_L_contacts.length
    let n_idler_R := m.m_idler_R_contacts.length
    let n_shoe_L := m.m_shoe_L_contacts.length
    let n_shoe_R := m.m_shoe_R_contacts.length
    let n_contacts :=
      n_chassis + n_sprocket_L + n_sprocket_R + n_idler_L + n_idler_R + n_shoe_L + n_shoe_R
    if n_contacts ≠ 0 then do
      let row : List CsvCell := [CsvCell.real v.ChTime]
      let row := row ++ [CsvCell.size m.m_chassis_contacts.length]
      let row := row ++ [CsvCell.size m.m_sprocket_L_contacts.length]
      let row := row ++ [CsvCell.size m.m_sprocket_R_contacts.length]
      let row := row ++ [CsvCell.size m.m_idler_L_contacts.length]
      let row := row ++ [CsvCell.size m.m_idler_R_contacts.length]
      let row := row ++ [CsvCell.size m.m_shoe_L_contacts.length]
      let row := row ++ [CsvCell.size m.m_shoe_R_contacts.length]
      let p ← localPoints v.bodies m.m_chassis m.m_chassis_contacts
      let row := row ++ p
      let p ← localPoints v.bodies m.m_sprocket_L m.m_sprocket_L_contacts
      let row := row ++ p
      let p ← localPoints v.bodies m.m_sprocket_R m.m_sprocket_R_contacts
      let row := row ++ p
      let p ← localPoints v.bodies m.m_idler_L m.m_idler_L_contacts
      let row := row ++ p
      let p ← localPoints v.bodies m.m_idler_R m.m_idler_R_contacts
      let row := row ++ p
      let p ← localPointsGuarded v.bodies m.m_shoe_L m.m_shoe_L_contacts
      let row := row ++ p
      let p ← localPointsGuarded v.bodies m.m_shoe_R m.m_shoe_R_contacts
      let row := row ++ p
      pure { m with m_csv := m.m_csv ++ [row] }
    else pure m
  else pure m

/-- The method `Process(vehicle)`. `none` when a null handle is dereferenced. -/
def Process (m : ChTrackContactManager) (v : ChTrackedVehicle) : Option ProcessOutcome :=
  -- Initialize the manager if not already done.
  let m := bindParts m v
  if m.m_flags = 0 then
    some ⟨m, []⟩
  else do
    -- Clear lists
    let m := clearLists m
    -- Traverse all system contacts and extract information.
    let r ← ReportAllContacts v.contacts m
    -- Collect contact information data.
    let m ← collect r.1 v
    pure ⟨m, r.2⟩

/-- The method `InContact(part)`. -/
def InContact (m : ChTrackContactManager) (part : Nat) : Bool :=
  if part = TrackedCollisionFlag.CHASSIS then m.m_chassis_contacts.length != 0
  else if part = TrackedCollisionFlag.SPROCKET_LEFT then m.m_sprocket_L_contacts.length != 0
  else if part = TrackedCollisionFlag.SPROCKET_RIGHT then m.m_sprocket_R_contacts.length != 0
  else if part = TrackedCollisionFlag.IDLER_LEFT then m.m_idler_L_contacts.length != 0
  else if part = TrackedCollisionFlag.IDLER_RIGHT then m.m_idler_R_contacts.length != 0
  else if part = TrackedCollisionFlag.SHOES_LEFT then m.m_shoe_L_contacts.length != 0
  else if part = TrackedCollisionFlag.SHOES_RIGHT then m.m_shoe_R_contacts.length != 0
  else false

/-- The method `GetSprocketResistiveTorque(side)`, reading the sprocket body
position from `bodies`. `none` when the sprocket handle is null. -/
def GetSprocketResistiveTorque (bodies : BodyStore) (m : ChTrackContactManager)
    (side : VehicleSide) : Option ChVector := do
  let contacts :=
    if side = VehicleSide.LEFT then m.m_sprocket_L_contacts else m.m_sprocket_R_contacts
  let g ← if side = VehicleSide.LEFT then m.m_sprocket_L else m.m_sprocket_R
  let spoint := (bodies g).GetPos
  let torque : ChVector := ChVector.zero
  let torque := contacts.foldl
    (fun torque c =>
      let F := c.m_csys.mulVec c.m_force
      let T := c.m_csys.mulVec c.m_torque
      torque + ((c.m_point - spoint).Cross F + T))
    torque
  pure torque

/-- The method `WriteContacts(filename)`: the rows written to the file, or
`none` when nothing is written. -/
def WriteContacts (m : ChTrackContactManager) : Option (List (List CsvCell)) :=
  if m.m_collect && m.m_flags != 0 then some m.m_csv else none

end ChTrackContactManager

/-! ## ChTrackCollisionManager -/

end vehicle

namespace collision

/-- The record `ChCollisionInfo` of one candidate collision, as far as this
file reads it: the contactables of the two collision models
(`modelA->GetContactable()`, `modelB->GetContactable()`), the normal, the two
contact points, and the distance. -/
structure ChCollisionInfo where
  modelA : ChContactable
  modelB : ChContactable
  vN : ChVector
  vpA : ChVector
  vpB : ChVector
  distance : ℚ
deriving DecidableEq

/-- Modelled from the spec: `SwapModels()` (defined in the collision-info
header outside the translated file) exchanges the two sides of the record:
the models and the contact points are swapped and the normal is reversed. -/
def ChCollisionInfo.SwapModels (ci : ChCollisionInfo) : ChCollisionInfo :=
  { ci with
    modelA := ci.modelB
    modelB := ci.modelA
    vpA := ci.vpB
    vpB := ci.vpA
    vN := -ci.vN }

end collision

namespace vehicle

open collision

/-- Member state of `ChTrackCollisionManager`: the two interception toggles and
the two caches. -/
structure ChTrackCollisionManager where
  m_idler_shoe : Bool
  m_wheel_shoe : Bool
  m_collisions_idler : List ChCollisionInfo
  m_collisions_wheel : List ChCollisionInfo
deriving DecidableEq

/-- The constant `static const double nrm_threshold = 0.8`: the double nearest
to 0.8, which is 3602879701896397 / 2^52 (a little above 4/5). -/
def nrm_threshold : ℚ := 3602879701896397 / 4503599627370496

namespace ChTrackCollisionManager

/-- The constructor: both toggles enabled, empty caches. -/
def new : ChTrackCollisionManager := ⟨true, true, [], []⟩

/-- The method `Reset()`. -/
def Reset (m : ChTrackCollisionManager) : ChTrackCollisionManager :=
  { m with m_collisions_idler := [], m_collisions_wheel := [] }

/-- The block `if (bodyB->GetIdentifier() == BodyID::SHOE_BODY) { ... }` of
`OnNarrowphase`: `some r` when the block returns `r`, `none` when control
falls through to the next statement. -/
def shoeIsB (m : ChTrackCollisionManager) (contactinfo : ChCollisionInfo)
    (bodyA bodyB : ChBody) : Option (ChTrackCollisionManager × Bool) :=
  if bodyB.GetIdentifier = BodyID.SHOE_BODY then
    -- Express collision normal in body A (wheel) frame
    let nrm := bodyA.TransformDirectionParentToLocal contactinfo.vN
    if |nrm.y| > nrm_threshold then
      some (m, true)
    else if m.m_idler_shoe = true ∧ bodyA.GetIdentifier = BodyID.IDLER_BODY then
      some ({ m with m_collisions_idler := m.m_collisions_idler ++ [contactinfo] }, false)
    else if m.m_wheel_shoe = true ∧ bodyA.GetIdentifier = BodyID.WHEEL_BODY then
      some ({ m with m_collisions_wheel := m.m_collisions_wheel ++ [contactinfo] }, false)
    else none
  else none

/-- The block `if (bodyA->GetIdentifier() == BodyID::SHOE_BODY) { ... }` of
`OnNarrowphase`: `some r` when the block returns `r`, `none` when control
falls through to the next statement. -/
def shoeIsA (m : ChTrackCollisionManager) (contactinfo : ChCollisionInfo)
    (bodyA bodyB : ChBody) : Option (ChTrackCollisionManager × Bool) :=
  if bodyA.GetIdentifier = BodyID.SHOE_BODY then
    -- Express collision normal in body B (wheel) frame
    let nrm := bodyB.TransformDirectionParentToLocal contactinfo.vN
    if |nrm.y| > nrm_threshold then
      some (m, true)
    else if m.m_idler_shoe = true ∧ bodyB.GetIdentifier = BodyID.IDLER_BODY then
      let contactinfoS := contactinfo.SwapModels
      some ({ m with m_collisions_idler := m.m_collisions_idler ++ [contactinfoS] }, false)
    else if m.m_wheel_shoe = true ∧ bodyB.GetIdentifier = BodyID.WHEEL_BODY then
      let contactinfoS := contactinfo.SwapModels
      some ({ m with m_collisions_wheel := m.m_collisions_wheel ++ [contactinfoS] }, false)
    else none
  else none

/-- The callback `OnNarrowphase(contactinfo)`: the new manager state and the
returned flag (`true`: let the engine generate the contact). -/
def OnNarrowphase (bodies : BodyStore) (m : ChTrackCollisionManager)
    (contactinfo : ChCollisionInfo) : ChTrackCollisionManager × Bool :=
  match contactinfo.modelA.asBody, contactinfo.modelB.asBody with
  | some a, some b =>
    let bodyA := bodies a
    let bodyB := bodies b
    -- Body B is a track shoe body
    match shoeIsB m contactinfo bodyA bodyB with
    | some r => r
    | none =>
      -- Body A is a track shoe body
      match shoeIsA m contactinfo bodyA bodyB with
      | some r => r
      | none =>
        -- Let Chrono generate contact for any other collision
        (m, true)
  | _, _ => (m, true)

/-- A run of the narrow phase: `OnNarrowphase` called for each candidate in
turn. -/
def narrowphaseRun (bodies : BodyStore) (m : ChTrackCollisionManager)
    (cs : List ChCollisionInfo) : ChTrackCollisionManager :=
  cs.foldl (fun m c => (OnNarrowphase bodies m c).1) m

end ChTrackCollisionManager

/-! ## ChTrackCustomContact -/

/-- A point-force load `ChLoadBodyForce(body, force, local_force, point, local_point)`.
`obj` is the identity of the load object that `make_shared` created. -/
structure ChLoadBodyForce where
  obj : Nat
  body : Nat
  force : ChVector
  local_force : Bool
  point : ChVector
  local_point : Bool
deriving DecidableEq

/-- Member state of `ChTrackCustomContact`: the time stamp and load list of the
load container, the state `σ` of the derived class that implements
`ComputeForce`, and the identity `next_obj` that the next `make_shared` hands
out. -/
structure ChTrackCustomContact (σ : Type) where
  ChTime : ℚ
  loadlist : List ChLoadBodyForce
  derived : σ
  next_obj : Nat

/-- The user-supplied `ComputeForce(cInfo, bodyA, bodyB, is_idler, forceB)`:
from the state of the derived class and the incoming value of the reference
argument `forceB`, the new state and the value of `forceB` on return. -/
abbrev ForceLaw (σ : Type) :=
  σ → ChCollisionInfo → Nat → Nat → Bool → ChVector → σ × ChVector

/-- The cast `static_cast<ChBody*>(contactable)`: the address, taken as a body
address. -/
def staticBody : ChContactable → Nat
  | ChContactable.body a => a
  | ChContactable.other a => a

namespace ChTrackCustomContact

variable {σ : Type}

/-- The body of the two `for` loops of `ApplyForces`, acting on the container
state and the local variable `forceB`. -/
def applyOne (ComputeForce : ForceLaw σ) (is_idler : Bool)
    (st : ChTrackCustomContact σ × ChVector) (cInfo : ChCollisionInfo) :
    ChTrackCustomContact σ × ChVector :=
  let s := st.1
  let bodyA := staticBody cInfo.modelA
  let bodyB := staticBody cInfo.modelB
  -- Call user-provided force calculation
  let r := ComputeForce s.derived cInfo bodyA bodyB is_idler st.2
  let forceB := r.2
  -- Apply equal and opposite forces on the two bodies in contact
  let loadA : ChLoadBodyForce := ⟨s.next_obj, bodyA, -forceB, false, cInfo.vpA, false⟩
  let loadB : ChLoadBodyForce := ⟨s.next_obj + 1, bodyB, forceB, false, cInfo.vpB, false⟩
  ({ s with
      derived := r.1
      loadlist := s.loadlist ++ [loadA] ++ [loadB]
      next_obj := s.next_obj + 2 },
   forceB)

/-- The method `ApplyForces()`, reading the caches of the collision manager
`cm` that `m_collision_manager` points to. -/
def ApplyForces (ComputeForce : ForceLaw σ) (cm : ChTrackCollisionManager)
    (s : ChTrackCustomContact σ) : ChTrackCustomContact σ :=
  -- Reset the load list for this load container
  let s := { s with loadlist := [] }
  let forceB : ChVector := ChVector.zero
  let st := cm.m_collisions_idler.foldl (applyOne ComputeForce true) (s, forceB)
  let st := cm.m_collisions_wheel.foldl (applyOne ComputeForce false) st
  st.1

/-- Modelled from the spec: the base-class `ChLoadContainer::Update(time, ...)`
(outside the translated file), "the underlying container's normal bookkeeping
update": it stamps the time and keeps the membership of the load list. -/
def ChLoadContainer_Update (s : ChTrackCustomContact σ) (mytime : ℚ) : ChTrackCustomContact σ :=
  { s with ChTime := mytime }

/-- The method `Setup()`. -/
def Setup (ComputeForce : ForceLaw σ) (cm : ChTrackCollisionManager)
    (s : ChTrackCustomContact σ) : ChTrackCustomContact σ :=
  -- Calculate contact forces for all current wheel-shoe collisions
  let s := ApplyForces ComputeForce cm s
  -- Perform a full update of the load container
  ChLoadContainer_Update s s.ChTime

/-- The method `Update(mytime, update_assets)`. -/
def Update (s : ChTrackCustomContact σ) (mytime : ℚ) (_update_assets : Bool) :
    ChTrackCustomContact σ :=
  { s with ChTime := mytime }

end ChTrackCustomContact

/-! ## Predicates and sample data used by the properties -/

/-- The bodies that the seven part handles of a manager are bound to. -/
structure BoundBodies where
  chassis : Nat
  sprocket_L : Nat
  sprocket_R : Nat
  idler_L : Nat
  idler_R : Nat
  shoe_L : Nat
  shoe_R : Nat
deriving DecidableEq

/-- All seven part handles of `m` are bound, to the bodies `b`. -/
def BoundTo (m : ChTrackContactManager) (b : BoundBodies) : Prop :=
  m.m_chassis = some b.chassis ∧
  m.m_sprocket_L = some b.sprocket_L ∧
  m.m_sprocket_R = some b.sprocket_R ∧
  m.m_idler_L = some b.idler_L ∧
  m.m_idler_R = some b.idler_R ∧
  m.m_shoe_L = some b.shoe_L ∧
  m.m_shoe_R = some b.shoe_R

instance (m : ChTrackContactManager) (b : BoundBodies) : Decidable (BoundTo m b) := by
  unfold BoundTo
  infer_instance

/-- All seven part flags are set in `m_flags`. -/
def AllFlagsSet (m : ChTrackContactManager) : Prop :=
  m.IsFlagSet TrackedCollisionFlag.CHASSIS = true ∧
  m.IsFlagSet TrackedCollisionFlag.SPROCKET_LEFT = true ∧
  m.IsFlagSet TrackedCollisionFlag.SPROCKET_RIGHT = true ∧
  m.IsFlagSet TrackedCollisionFlag.IDLER_LEFT = true ∧
  m.IsFlagSet TrackedCollisionFlag.IDLER_RIGHT = true ∧
  m.IsFlagSet TrackedCollisionFlag.SHOES_LEFT = true ∧
  m.IsFlagSet TrackedCollisionFlag.SHOES_RIGHT = true

instance (m : ChTrackContactManager) : Decidable (AllFlagsSet m) := by
  unfold AllFlagsSet
  infer_instance

/-- A reported contact is resolved: no positive separation and a non-zero
reaction force. -/
def ReportedContact.resolved (c : ReportedContact) : Prop :=
  c.distance ≤ 0 ∧ c.react_forces ≠ 0

instance (c : ReportedContact) : Decidable c.resolved := by
  unfold ReportedContact.resolved
  infer_instance

/-- Sample binding: hull 0, sprockets 1 and 2, idlers 3 and 4, shoes 5 and 6. -/
def sampleBodies : BoundBodies := ⟨0, 1, 2, 3, 4, 5, 6⟩

/-- Sample manager: bound to `sampleBodies`, every flag set, empty lists. -/
def sampleManager : ChTrackContactManager :=
  { ChTrackContactManager.new with
    m_initialized := true
    m_flags := TrackedCollisionFlag.ALL
    m_chassis := some 0
    m_sprocket_L := some 1
    m_sprocket_R := some 2
    m_idler_L := some 3
    m_idler_R := some 4
    m_shoe_L := some 5
    m_shoe_R := some 6 }

/-- Sample resolved contact between the contactables `a` and `b`: distance 0,
reaction force (1, 0, 0). -/
def sampleContact (a b : ChContactable) : ReportedContact where
  pA := ⟨1, 0, 0⟩
  pB := ⟨0, 1, 0⟩
  plane_coord := ChMatrix33.identity
  distance := 0
  eff_radius := 1
  react_forces := ⟨1, 0, 0⟩
  react_torques := ⟨0, 0, 0⟩
  modA := a
  modB := b

/-- The magnitude `std::abs(nrm.y())` that `OnNarrowphase` compares with the
threshold: the lateral (y) component of the collision normal of `ci` expressed
in the local frame of the body `W`, as `W` computes it. -/
def lateral (W : ChBody) (ci : ChCollisionInfo) : ℚ :=
  |(W.TransformDirectionParentToLocal ci.vN).y|

/-- Every record of the cache `l` has a body of role `role` as model A and a
shoe body as model B. -/
def CacheOriented (bodies : BodyStore) (role : BodyID) (l : List ChCollisionInfo) : Prop :=
  ∀ r ∈ l, ∃ a b, r.modelA = ChContactable.body a ∧ r.modelB = ChContactable.body b ∧
    (bodies a).identifier = role ∧ (bodies b).identifier = BodyID.SHOE_BODY

/-- Sample body of role `role` whose frame is the global frame (at the origin,
not rotated): both transforms return their argument. -/
def sampleBody (role : BodyID) : ChBody where
  pos := ⟨0, 0, 0⟩
  identifier := role
  dirToLocal := fun d => d
  pointToLocal := fun p => p

/-- Sample bodies, all with the global frame as their frame: hull 0,
sprockets 1 and 2, idlers 3 and 4, shoes 5 and 6, road wheels 7 and 8; any
other address is an unclassified body. -/
def sampleStore : BodyStore := fun a =>
  if a = 0 then sampleBody BodyID.CHASSIS_BODY
  else if a = 1 ∨ a = 2 then sampleBody BodyID.SPROCKET_BODY
  else if a = 3 ∨ a = 4 then sampleBody BodyID.IDLER_BODY
  else if a = 5 ∨ a = 6 then sampleBody BodyID.SHOE_BODY
  else if a = 7 ∨ a = 8 then sampleBody BodyID.WHEEL_BODY
  else sampleBody BodyID.UNCLASSIFIED

/-- The double nearest to 0.81. -/
def double_0_81 : ℚ := 1823957849085051 / 2251799813685248

/-- The double nearest to 0.79. -/
def double_0_79 : ℚ := 889460926405673 / 1125899906842624

/-- The double next above the double 0.8, printed 0.80000000000000016; it is
what `0.6 * 0.28 + 0.8 * 0.79` evaluates to in double arithmetic, although the
exact sum is 4/5. -/
def double_above_0_8 : ℚ := 7205759403792795 / 9007199254740992

/-- Sample candidate collision between `a` and `b` with normal `(0, y, 0)`. -/
def sampleCollision (a b : ChContactable) (y : ℚ) : ChCollisionInfo where
  modelA := a
  modelB := b
  vN := ⟨0, y, 0⟩
  vpA := ⟨1, 0, 0⟩
  vpB := ⟨1, 0, 1⟩
  distance := 0

/-! ## Reference descriptions of the force injection -/

/-- The calls of the force law that one step owes: every cached idler-shoe
collision with `is_idler = true`, then every cached wheel-shoe collision with
`is_idler = false`. -/
def cachedCalls (cm : ChTrackCollisionManager) : List (ChCollisionInfo × Bool) :=
  cm.m_collisions_idler.map (fun c => (c, true)) ++
    cm.m_collisions_wheel.map (fun c => (c, false))

/-- The forces that the force law returns when it is called once for each
entry of `calls`, in order, starting from the derived-class state `d` and the
incoming value `f` of the reference argument. -/
def lawOutputs {σ : Type} (law : ForceLaw σ) :
    σ → ChVector → List (ChCollisionInfo × Bool) → List ChVector
  | _, _, [] => []
  | d, f, call :: rest =>
    let r := law d call.1 (staticBody call.1.modelA) (staticBody call.1.modelB) call.2 f
    r.2 :: lawOutputs law r.1 r.2 rest

/-- The two loads owed to the collision `c` with force `F`: `-F` on body A at
`vpA`, then `+F` on body B at `vpB`, both in absolute coordinates; `n` and
`n + 1` are the identities of the two load objects. -/
def loadPair (n : Nat) (c : ChCollisionInfo) (F : ChVector) : List ChLoadBodyForce :=
  [⟨n, staticBody c.modelA, -F, false, c.vpA, false⟩,
   ⟨n + 1, staticBody c.modelB, F, false, c.vpB, false⟩]

/-- The load pairs owed to a list of collisions with their forces, the load
objects being numbered from `n`. -/
def expectedPairs : Nat → List (ChCollisionInfo × ChVector) → List (List ChLoadBodyForce)
  | _, [] => []
  | n, cF :: rest => loadPair n cF.1 cF.2 :: expectedPairs (n + 2) rest

/-- A force law instrumented with a log of its invocations: it behaves as
`law` and appends the collision and the `is_idler` flag it is called with to
the log kept in the derived-class state. -/
def traceCalls {σ : Type} (law : ForceLaw σ) : ForceLaw (σ × List (ChCollisionInfo × Bool)) :=
  fun d c bodyA bodyB is_idler f =>
    let r := law d.1 c bodyA bodyB is_idler f
    ((r.1, d.2 ++ [(c, is_idler)]), r.2)

/-- One step of the load container: `Setup()` once, then `Update(t, a)` for
each entry of `updates`. -/
def ChTrackCustomContact.stepRun {σ : Type} (ComputeForce : ForceLaw σ)
    (cm : ChTrackCollisionManager) (s : ChTrackCustomContact σ) (updates : List (ℚ × Bool)) :
    ChTrackCustomContact σ :=
  updates.foldl (fun s u => ChTrackCustomContact.Update s u.1 u.2)
    (ChTrackCustomContact.Setup ComputeForce cm s)

/-- Sample force law without state: a unit force along `z` for idler pairs and
of magnitude 2 for wheel pairs. -/
def sampleLaw : ForceLaw Unit :=
  fun _ _ _ _ is_idler _ => ((), if is_idler then ⟨0, 0, 1⟩ else ⟨0, 0, 2⟩)

/-- Sample collision manager with one cached idler-shoe and one cached
wheel-shoe collision. -/
def sampleCaches : ChTrackCollisionManager where
  m_idler_shoe := true
  m_wheel_shoe := true
  m_collisions_idler := [sampleCollision (ChContactable.body 3) (ChContactable.body 5) 0]
  m_collisions_wheel := [sampleCollision (ChContactable.body 7) (ChContactable.body 5) 0]

/-- Sample load container holding two loads (objects 0 and 1) of an earlier
step. -/
def sampleContainer : ChTrackCustomContact Unit where
  ChTime := 0
  loadlist := [⟨0, 3, ⟨0, 0, -1⟩, false, ⟨1, 0, 0⟩, false⟩, ⟨1, 5, ⟨0, 0, 1⟩, false, ⟨1, 0, 1⟩, false⟩]
  derived := ()
  next_obj := 2

/-! ## Reference descriptions of the observation -/

/-- The records owed to the part whose body is `h` by the engine contacts
`contacts`: for each resolved contact in turn, a record with point `pA` when
body A is `h`, then a record with point `pB` when body B is `h`. -/
def recordsOf (h : Nat) (contacts : List ReportedContact) : List ContactInfo :=
  contacts.flatMap fun c =>
    if c.resolved then
      (if c.modA = ChContactable.body h then [ChTrackContactManager.mkInfo c.pA c] else []) ++
        (if c.modB = ChContactable.body h then [ChTrackContactManager.mkInfo c.pB c] else [])
    else []

/-- A sequence of `Process` calls, one per step, each with the vehicle as it is
at that step. -/
def ChTrackContactManager.processRun :
    ChTrackContactManager → List ChTrackedVehicle → Option ChTrackContactManager
  | m, [] => some m
  | m, v :: vs => do
    let r ← ChTrackContactManager.Process m v
    ChTrackContactManager.processRun r.manager vs

/-- The sum, over the records of `contacts`, of `(P - C) x (R*f) + R*t`. -/
def torqueAbout (C : ChVector) (contacts : List ContactInfo) : ChVector :=
  (contacts.map fun c =>
    (c.m_point - C).Cross (c.m_csys.mulVec c.m_force) + c.m_csys.mulVec c.m_torque).sum

/-- Sample vehicle over the sample bodies, one shoe per track, holding the
engine contacts `contacts`. -/
def sampleVehicle (contacts : List ReportedContact) : ChTrackedVehicle where
  chassis := 0
  left := ⟨1, 3, [5]⟩
  right := ⟨2, 4, [6]⟩
  ChTime := 0
  contacts := contacts
  bodies := sampleStore

/-- Sample record at point (0, 1, 0) with force (1, 0, 0) and torque (0, 0, 1)
in the identity contact frame. -/
def sampleRecord : ContactInfo := ⟨⟨0, 1, 0⟩, ChMatrix33.identity, ⟨1, 0, 0⟩, ⟨0, 0, 1⟩⟩

/-- Sample manager monitoring the hull only, whose left sprocket list still
holds a record. -/
def hullOnlyManager : ChTrackContactManager :=
  { sampleManager with
    m_flags := TrackedCollisionFlag.CHASSIS
    m_sprocket_L_contacts := [sampleRecord] }

/-- Sample manager whose left sprocket list holds one record: point (0, 1, 0),
force (1, 0, 0) and torque (0, 0, 3) in the identity contact frame. -/
def torqueManager : ChTrackContactManager :=
  { sampleManager with
    m_sprocket_L_contacts := [⟨⟨0, 1, 0⟩, ChMatrix33.identity, ⟨1, 0, 0⟩, ⟨0, 0, 3⟩⟩] }

/-! ## Block structure of the reporting callback -/

/-- One hull / sprocket / idler block of `OnReportContact` as a function of the
flag test, the part handle and the part list. -/
def ChTrackContactManager.plainBlock (flag : Bool) (part : Option Nat) (c : ReportedContact)
    (l : List ContactInfo) : Option (List ContactInfo) :=
  if flag then part.map fun b => ChTrackContactManager.pushMatching b c l else some l

/-- One shoe block of `OnReportContact` as a function of the flag test, the
shoe and sprocket handles and the shoe list. -/
def ChTrackContactManager.shoeBlock (flag : Bool) (shoe sprocket : Option Nat)
    (c : ReportedContact) (l : List ContactInfo) : Option (List ContactInfo) :=
  if flag then ChTrackContactManager.pushShoe shoe sprocket c l else some l

/-- The records that one contact owes to a hull / sprocket / idler part whose
body is `h`: one with point `pA` when body A is `h`, then one with point `pB`
when body B is `h`. -/
def owedPlain (h : Nat) (c : ReportedContact) : List ContactInfo :=
  (if c.modA = ChContactable.body h then [ChTrackContactManager.mkInfo c.pA c] else []) ++
    (if c.modB = ChContactable.body h then [ChTrackContactManager.mkInfo c.pB c] else [])

/-- The records that one contact owes to a shoe part whose body is `s`, the
sprocket of the same side having the body `g`: as for the other parts, except
that a side is skipped when the partner on the other side is `g`. -/
def owedShoe (s g : Nat) (c : ReportedContact) : List ContactInfo :=
  (if c.modA = ChContactable.body s ∧ c.modB ≠ ChContactable.body g then
      [ChTrackContactManager.mkInfo c.pA c] else []) ++
    (if c.modB = ChContactable.body s ∧ c.modA ≠ ChContactable.body g then
      [ChTrackContactManager.mkInfo c.pB c] else [])

/-- Every part whose list holds a record has its handle bound. -/
def BoundIfNonempty (m : ChTrackContactManager) : Prop :=
  (m.m_chassis_contacts ≠ [] → m.m_chassis ≠ none) ∧
  (m.m_sprocket_L_contacts ≠ [] → m.m_sprocket_L ≠ none) ∧
  (m.m_sprocket_R_contacts ≠ [] → m.m_sprocket_R ≠ none) ∧
  (m.m_idler_L_contacts ≠ [] → m.m_idler_L ≠ none) ∧
  (m.m_idler_R_contacts ≠ [] → m.m_idler_R ≠ none) ∧
  (m.m_shoe_L_contacts ≠ [] → m.m_shoe_L ≠ none) ∧
  (m.m_shoe_R_contacts ≠ [] → m.m_shoe_R ≠ none)

/-- Sample vehicle whose left track assembly has no shoe at all (the right one
has one), holding the engine contacts `contacts`. -/
def shoelessVehicle (contacts : List ReportedContact) : ChTrackedVehicle where
  chassis := 0
  left := ⟨1, 3, []⟩
  right := ⟨2, 4, [6]⟩
  ChTime := 0
  contacts := contacts
  bodies := sampleStore

/-- Every part whose flag is set has its handle bound (a shoe part also needs
the sprocket of its side, which its block compares against). -/
def FlaggedBound (m : ChTrackContactManager) : Prop :=
  (m.IsFlagSet TrackedCollisionFlag.CHASSIS = true → m.m_chassis ≠ none) ∧
  (m.IsFlagSet TrackedCollisionFlag.SPROCKET_LEFT = true → m.m_sprocket_L ≠ none) ∧
  (m.IsFlagSet TrackedCollisionFlag.SPROCKET_RIGHT = true → m.m_sprocket_R ≠ none) ∧
  (m.IsFlagSet TrackedCollisionFlag.IDLER_LEFT = true → m.m_idler_L ≠ none) ∧
  (m.IsFlagSet TrackedCollisionFlag.IDLER_RIGHT = true → m.m_idler_R ≠ none) ∧
  (m.IsFlagSet TrackedCollisionFlag.SHOES_LEFT = true →
    m.m_shoe_L ≠ none ∧ m.m_sprocket_L ≠ none) ∧
  (m.IsFlagSet TrackedCollisionFlag.SHOES_RIGHT = true →
    m.m_shoe_R ≠ none ∧ m.m_sprocket_R ≠ none)

instance (m : ChTrackContactManager) : Decidable (FlaggedBound m) := by
  unfold FlaggedBound
  infer_instance

/-- The seven part contact lists, in the order hull, sprocket-L, sprocket-R,
idler-L, idler-R, shoe-L, shoe-R. -/
def partLists (m : ChTrackContactManager) : List (List ContactInfo) :=
  [m.m_chassis_contacts, m.m_sprocket_L_contacts, m.m_sprocket_R_contacts,
   m.m_idler_L_contacts, m.m_idler_R_contacts, m.m_shoe_L_contacts, m.m_shoe_R_contacts]

/-- The total number of records over the seven part contact lists. -/
def totalRecords (m : ChTrackContactManager) : Nat :=
  m.m_chassis_contacts.length + m.m_sprocket_L_contacts.length +
    m.m_sprocket_R_contacts.length + m.m_idler_L_contacts.length +
    m.m_idler_R_contacts.length + m.m_shoe_L_contacts.length + m.m_shoe_R_contacts.length

/-- Folding `OnReportContact` over a list of contacts, in order. -/
def foldReport : List ReportedContact → ChTrackContactManager → Option ChTrackContactManager
  | [], m => some m
  | c :: cs, m => (ChTrackContactManager.OnReportContact m c).bind fun r => foldReport cs r.1

/-- The points of the records of a part list expressed in the local frame of
the part's body, three cells per record (nothing for an unbound part). -/
def pointCells (bodies : BodyStore) (part : Option Nat) (l : List ContactInfo) : List CsvCell :=
  match part with
  | some b => l.flatMap fun c =>
      CsvCell.ofVector ((bodies b).TransformPointParentToLocal c.m_point)
  | none => []

/-- The snapshot row of a step: the step time, then the seven list sizes in
the order hull, sprocket-L, sprocket-R, idler-L, idler-R, shoe-L, shoe-R, then
for each list in that same order the local point of each of its records. -/
def snapshotRow (m : ChTrackContactManager) (v : ChTrackedVehicle) : List CsvCell :=
  [CsvCell.real v.ChTime,
   CsvCell.size m.m_chassis_contacts.length,
   CsvCell.size m.m_sprocket_L_contacts.length,
   CsvCell.size m.m_sprocket_R_contacts.length,
   CsvCell.size m.m_idler_L_contacts.length,
   CsvCell.size m.m_idler_R_contacts.length,
   CsvCell.size m.m_shoe_L_contacts.length,
   CsvCell.size m.m_shoe_R_contacts.length] ++
  pointCells v.bodies m.m_chassis m.m_chassis_contacts ++
  pointCells v.bodies m.m_sprocket_L m.m_sprocket_L_contacts ++
  pointCells v.bodies m.m_sprocket_R m.m_sprocket_R_contacts ++
  pointCells v.bodies m.m_idler_L m.m_idler_L_contacts ++
  pointCells v.bodies m.m_idler_R m.m_idler_R_contacts ++
  pointCells v.bodies m.m_shoe_L m.m_shoe_L_contacts ++
  pointCells v.bodies m.m_shoe_R m.m_shoe_R_contacts

/-- The seven part handles, in the order hull, sprocket-L, sprocket-R,
idler-L, idler-R, shoe-L, shoe-R. -/
def handles (m : ChTrackContactManager) : List (Option Nat) :=
  [m.m_chassis, m.m_sprocket_L, m.m_sprocket_R, m.m_idler_L, m.m_idler_R, m.m_shoe_L,
   m.m_shoe_R]

/-- Both track assemblies of `v` have more shoes than the monitored shoe index
of their side. -/
def EnoughShoes (m : ChTrackContactManager) (v : ChTrackedVehicle) : Prop :=
  (v.GetTrackAssembly VehicleSide.LEFT).shoes.length > m.m_shoe_index_L ∧
    (v.GetTrackAssembly VehicleSide.RIGHT).shoes.length > m.m_shoe_index_R

instance (m : ChTrackContactManager) (v : ChTrackedVehicle) : Decidable (EnoughShoes m v) := by
  unfold EnoughShoes
  infer_instance

/-- Sample vehicle whose left track assembly has one shoe and whose right
track assembly has none, holding the engine contacts `contacts`. -/
def halfShodVehicle (contacts : List ReportedContact) : ChTrackedVehicle where
  chassis := 0
  left := ⟨1, 3, [5]⟩
  right := ⟨2, 4, []⟩
  ChTime := 0
  contacts := contacts
  bodies := sampleStore

/-- The seven monitored parts. -/
inductive Part where
  | hull
  | sprocket_L
  | sprocket_R
  | idler_L
  | idler_R
  | shoe_L
  | shoe_R
deriving DecidableEq

/-- The contact list of a part. -/
def Part.list : Part → ChTrackContactManager → List ContactInfo
  | Part.hull, m => m.m_chassis_contacts
  | Part.sprocket_L, m => m.m_sprocket_L_contacts
  | Part.sprocket_R, m => m.m_sprocket_R_contacts
  | Part.idler_L, m => m.m_idler_L_contacts
  | Part.idler_R, m => m.m_idler_R_contacts
  | Part.shoe_L, m => m.m_shoe_L_contacts
  | Part.shoe_R, m => m.m_shoe_R_contacts

/-- The body a part is bound to. -/
def Part.body : Part → BoundBodies → Nat
  | Part.hull, b => b.chassis
  | Part.sprocket_L, b => b.sprocket_L
  | Part.sprocket_R, b => b.sprocket_R
  | Part.idler_L, b => b.idler_L
  | Part.idler_R, b => b.idler_R
  | Part.shoe_L, b => b.shoe_L
  | Part.shoe_R, b => b.shoe_R

/-- The seven bound bodies, as a list. -/
def BoundBodies.all (b : BoundBodies) : List Nat :=
  [b.chassis, b.sprocket_L, b.sprocket_R, b.idler_L, b.idler_R, b.shoe_L, b.shoe_R]

/-- 1 when the contactable `x` is the body `h`, 0 otherwise. -/
def matchCount (x : ChContactable) (h : Nat) : Nat :=
  if x = ChContactable.body h then 1 else 0

end vehicle

end chrono

/-! # Properties -/

namespace chrono

namespace vehicle

open collision

/-! ## Vector facts -/

@[ext]
theorem ChVector.ext3 {a b : ChVector} (hx : a.x = b.x) (hy : a.y = b.y) (hz : a.z = b.z) :
    a = b := by
  cases a; cases b; simp_all

@[simp] theorem ChVector.zero_x : (0 : ChVector).x = 0 := rfl

@[simp] theorem ChVector.zero_y : (0 : ChVector).y = 0 := rfl

@[simp] theorem ChVector.zero_z : (0 : ChVector).z = 0 := rfl

@[simp] theorem ChVector.add_x (a b : ChVector) : (a + b).x = a.x + b.x := rfl

@[simp] theorem ChVector.add_y (a b : ChVector) : (a + b).y = a.y + b.y := rfl

@[simp] theorem ChVector.add_z (a b : ChVector) : (a + b).z = a.z + b.z := rfl

@[simp] theorem ChVector.neg_x (a : ChVector) : (-a).x = -a.x := rfl

@[simp] theorem ChVector.neg_y (a : ChVector) : (-a).y = -a.y := rfl

@[simp] theorem ChVector.neg_z (a : ChVector) : (-a).z = -a.z := rfl

@[simp] theorem ChVector.sub_x (a b : ChVector) : (a - b).x = a.x - b.x := rfl

@[simp] theorem ChVector.sub_y (a b : ChVector) : (a - b).y = a.y - b.y := rfl

@[simp] theorem ChVector.sub_z (a b : ChVector) : (a - b).z = a.z - b.z := rfl

theorem ChVector.isNull_iff (a : ChVector) : a.IsNull = true ↔ a = 0 := by
  constructor
  · intro h
    simp only [ChVector.IsNull, Bool.and_eq_true, decide_eq_true_eq] at h
    ext <;> simp [h.1.1, h.1.2, h.2]
  · intro h
    subst h
    simp [ChVector.IsNull]

namespace ChTrackContactManager

/-! ## OnReportContact -/

/-- C2: a reported contact with positive separation distance, or with a zero
reaction force, leaves the manager (hence all seven part contact lists)
exactly as it was, whatever the flags, the handles and the two contactables;
the callback answers "continue". -/
theorem OnReportContact_ignores_unresolved (m : ChTrackContactManager) (c : ReportedContact)
    (h : 0 < c.distance ∨ c.react_forces = 0) :
    OnReportContact m c = some (m, true) := by
  have h' : 0 < c.distance ∨ c.react_forces.IsNull = true := by
    rcases h with h | h
    · exact Or.inl h
    · exact Or.inr ((ChVector.isNull_iff _).2 h)
  simp [OnReportContact, h']

/-- C1 (counterexample): with every flag set and all handles bound to distinct
bodies, the resolved contact with the left monitored shoe as body A and the
right sprocket gear body as body B is appended to the left shoe list. -/
theorem shoe_vs_other_side_sprocket_recorded :
    AllFlagsSet sampleManager ∧ BoundTo sampleManager sampleBodies ∧
    (sampleContact (ChContactable.body 5) (ChContactable.body 2)).resolved ∧
    ∃ m', OnReportContact sampleManager
        (sampleContact (ChContactable.body 5) (ChContactable.body 2)) = some (m', true) ∧
      m'.m_shoe_L_contacts = sampleManager.m_shoe_L_contacts ++
        [mkInfo ⟨1, 0, 0⟩ (sampleContact (ChContactable.body 5) (ChContactable.body 2))] := by
  refine ⟨by decide, by decide, by decide, _, rfl, rfl⟩

/-- C1 (amended): for a resolved contact between a monitored shoe body and the
sprocket gear body of the same side, in either A/B order, with all flags set
and the shoe and sprocket bodies pairwise distinct, `OnReportContact` appends
one record (with the sprocket-side point) to that sprocket's list and leaves
both shoe lists as they were. -/
theorem shoe_vs_same_side_sprocket (m : ChTrackContactManager) (c : ReportedContact)
    (b : BoundBodies) (hb : BoundTo m b) (hf : AllFlagsSet m)
    (hd : [b.shoe_L, b.shoe_R, b.sprocket_L, b.sprocket_R].Nodup) (hr : c.resolved) :
    (c.modA = ChContactable.body b.shoe_L ∧ c.modB = ChContactable.body b.sprocket_L →
      ∃ m', OnReportContact m c = some (m', true) ∧
        m'.m_sprocket_L_contacts = m.m_sprocket_L_contacts ++ [mkInfo c.pB c] ∧
        m'.m_shoe_L_contacts = m.m_shoe_L_contacts ∧
        m'.m_shoe_R_contacts = m.m_shoe_R_contacts) ∧
    (c.modA = ChContactable.body b.sprocket_L ∧ c.modB = ChContactable.body b.shoe_L →
      ∃ m', OnReportContact m c = some (m', true) ∧
        m'.m_sprocket_L_contacts = m.m_sprocket_L_contacts ++ [mkInfo c.pA c] ∧
        m'.m_shoe_L_contacts = m.m_shoe_L_contacts ∧
        m'.m_shoe_R_contacts = m.m_shoe_R_contacts) ∧
    (c.modA = ChContactable.body b.shoe_R ∧ c.modB = ChContactable.body b.sprocket_R →
      ∃ m', OnReportContact m c = some (m', true) ∧
        m'.m_sprocket_R_contacts = m.m_sprocket_R_contacts ++ [mkInfo c.pB c] ∧
        m'.m_shoe_L_contacts = m.m_shoe_L_contacts ∧
        m'.m_shoe_R_contacts = m.m_shoe_R_contacts) ∧
    (c.modA = ChContactable.body b.sprocket_R ∧ c.modB = ChContactable.body b.shoe_R →
      ∃ m', OnReportContact m c = some (m', true) ∧
        m'.m_sprocket_R_contacts = m.m_sprocket_R_contacts ++ [mkInfo c.pA c] ∧
        m'.m_shoe_L_contacts = m.m_shoe_L_contacts ∧
        m'.m_shoe_R_contacts = m.m_shoe_R_contacts) := by
  obtain ⟨h1, h2, h3, h4, h5, h6, h7⟩ := hb
  obtain ⟨f1, f2, f3, f4, f5, f6, f7⟩ := hf
  simp only [IsFlagSet] at f1 f2 f3 f4 f5 f6 f7
  have hn : ¬ (0 < c.distance ∨ c.react_forces.IsNull = true) := by
    rw [ChVector.isNull_iff]
    push_neg
    exact hr
  simp only [List.nodup_cons, List.mem_cons, List.mem_singleton, not_or, List.not_mem_nil,
    not_false_eq_true, List.nodup_nil, and_true] at hd
  obtain ⟨⟨d1, d2, d3⟩, ⟨d4, d5⟩, d6⟩ := hd
  unfold OnReportContact
  rw [if_neg hn]
  simp only [IsFlagSet, f1, f2, f3, f4, f5, f6, f7, h1, h2, h3, h4, h5, h6, h7, if_true,
    Option.bind_eq_bind, Option.some_bind, Option.pure_def, ↓reduceIte]
  refine ⟨?_, ?_, ?_, ?_⟩ <;>
  · rintro ⟨hA, hB⟩
    simp [pushShoe, shoeCond, pushMatching, hA, hB, d1, d2, d3, d4, d5, d6, Ne.symm d1,
      Ne.symm d2, Ne.symm d3, Ne.symm d4, Ne.symm d5, Ne.symm d6]

/-- C1 (witness): the amended statement at the sample manager, for the left
shoe (body 5) as A against the left sprocket (body 1) as B. -/
theorem shoe_vs_same_side_sprocket_witness :
    ∃ m', OnReportContact sampleManager
        (sampleContact (ChContactable.body 5) (ChContactable.body 1)) = some (m', true) ∧
      m'.m_sprocket_L_contacts = sampleManager.m_sprocket_L_contacts ++
        [mkInfo ⟨0, 1, 0⟩ (sampleContact (ChContactable.body 5) (ChContactable.body 1))] ∧
      m'.m_shoe_L_contacts = sampleManager.m_shoe_L_contacts ∧
      m'.m_shoe_R_contacts = sampleManager.m_shoe_R_contacts :=
  (shoe_vs_same_side_sprocket sampleManager
    (sampleContact (ChContactable.body 5) (ChContactable.body 1)) sampleBodies
    (by decide) (by decide) (by decide) (by decide)).1 ⟨rfl, rfl⟩

/-- C2 (witness): a contact at separation distance 1 leaves the sample manager
unchanged. -/
theorem OnReportContact_ignores_unresolved_witness :
    OnReportContact sampleManager
      { sampleContact (ChContactable.body 0) (ChContactable.body 1) with distance := 1 } =
      some (sampleManager, true) :=
  OnReportContact_ignores_unresolved sampleManager
    { sampleContact (ChContactable.body 0) (ChContactable.body 1) with distance := 1 }
    (Or.inl (by decide))

end ChTrackContactManager

namespace ChTrackCollisionManager

/-! ## OnNarrowphase -/

/-- The five ways `OnNarrowphase` can end: pass the candidate through with the
state unchanged, or suppress it after appending it (as reported, or swapped
when the shoe was reported as A) to the idler-shoe or the wheel-shoe cache. -/
theorem OnNarrowphase_cases (bodies : BodyStore) (m : ChTrackCollisionManager)
    (ci : ChCollisionInfo) :
    OnNarrowphase bodies m ci = (m, true) ∨
    (∃ a b, ci.modelA = ChContactable.body a ∧ ci.modelB = ChContactable.body b ∧
      (bodies a).identifier = BodyID.IDLER_BODY ∧ (bodies b).identifier = BodyID.SHOE_BODY ∧
      m.m_idler_shoe = true ∧
      OnNarrowphase bodies m ci =
        ({ m with m_collisions_idler := m.m_collisions_idler ++ [ci] }, false)) ∨
    (∃ a b, ci.modelA = ChContactable.body a ∧ ci.modelB = ChContactable.body b ∧
      (bodies a).identifier = BodyID.WHEEL_BODY ∧ (bodies b).identifier = BodyID.SHOE_BODY ∧
      m.m_wheel_shoe = true ∧
      OnNarrowphase bodies m ci =
        ({ m with m_collisions_wheel := m.m_collisions_wheel ++ [ci] }, false)) ∨
    (∃ a b, ci.modelA = ChContactable.body a ∧ ci.modelB = ChContactable.body b ∧
      (bodies a).identifier = BodyID.SHOE_BODY ∧ (bodies b).identifier = BodyID.IDLER_BODY ∧
      m.m_idler_shoe = true ∧
      OnNarrowphase bodies m ci =
        ({ m with m_collisions_idler := m.m_collisions_idler ++ [ci.SwapModels] }, false)) ∨
    (∃ a b, ci.modelA = ChContactable.body a ∧ ci.modelB = ChContactable.body b ∧
      (bodies a).identifier = BodyID.SHOE_BODY ∧ (bodies b).identifier = BodyID.WHEEL_BODY ∧
      m.m_wheel_shoe = true ∧
      OnNarrowphase bodies m ci =
        ({ m with m_collisions_wheel := m.m_collisions_wheel ++ [ci.SwapModels] }, false)) := by
  rcases hA : ci.modelA with a | a <;> rcases hB : ci.modelB with b | b <;>
    simp only [OnNarrowphase, hA, hB, ChContactable.asBody, true_or]
  simp only [shoeIsB, shoeIsA, ChBody.GetIdentifier, ChContactable.body.injEq, exists_and_left,
    exists_eq_left', false_and, exists_false, or_false, false_or]
  by_cases hb : (bodies b).identifier = BodyID.SHOE_BODY
  · by_cases hl : |((bodies a).TransformDirectionParentToLocal ci.vN).y| > nrm_threshold
    · simp [hb, hl]
    · by_cases hi : m.m_idler_shoe = true ∧ (bodies a).identifier = BodyID.IDLER_BODY
      · simp [hb, hl, hi]
      · by_cases hw : m.m_wheel_shoe = true ∧ (bodies a).identifier = BodyID.WHEEL_BODY
        · simp [hb, hl, hi, hw]
        · by_cases ha : (bodies a).identifier = BodyID.SHOE_BODY
          · simp only [hb, hl, hi, hw, ha, if_true, if_false, and_false, reduceCtorEq]
            split_ifs <;> simp
          · simp [hb, hl, hi, hw, ha]
  · by_cases ha : (bodies a).identifier = BodyID.SHOE_BODY
    · by_cases hl : |((bodies b).TransformDirectionParentToLocal ci.vN).y| > nrm_threshold
      · simp [hb, hl, ha]
      · by_cases hi : m.m_idler_shoe = true ∧ (bodies b).identifier = BodyID.IDLER_BODY
        · simp [hb, hl, hi, ha]
        · by_cases hw : m.m_wheel_shoe = true ∧ (bodies b).identifier = BodyID.WHEEL_BODY
          · simp [hb, hl, hi, hw, ha]
          · simp [hb, hl, hi, hw, ha]
    · simp [hb, ha]

/-- C3: for a candidate between a shoe body and an idler or wheel body whose
interception toggle is enabled, in either order: when the magnitude of the
lateral component of the normal, as computed in the non-shoe body's frame,
is greater than the threshold 0.8 (the double `nrm_threshold`), the candidate is
passed through (result `true`, state unchanged); when it is at most the
threshold, the threshold itself included, the candidate is suppressed (result
`false`) and exactly one record is appended to the matching cache, everything
else unchanged. -/
theorem OnNarrowphase_threshold (bodies : BodyStore) (m : ChTrackCollisionManager)
    (ci : ChCollisionInfo) (a b : Nat)
    (hA : ci.modelA = ChContactable.body a) (hB : ci.modelB = ChContactable.body b) :
    ((bodies b).identifier = BodyID.SHOE_BODY ∧ (bodies a).identifier = BodyID.IDLER_BODY ∧
        m.m_idler_shoe = true →
      (nrm_threshold < lateral (bodies a) ci → OnNarrowphase bodies m ci = (m, true)) ∧
      (lateral (bodies a) ci ≤ nrm_threshold → OnNarrowphase bodies m ci =
        ({ m with m_collisions_idler := m.m_collisions_idler ++ [ci] }, false))) ∧
    ((bodies b).identifier = BodyID.SHOE_BODY ∧ (bodies a).identifier = BodyID.WHEEL_BODY ∧
        m.m_wheel_shoe = true →
      (nrm_threshold < lateral (bodies a) ci → OnNarrowphase bodies m ci = (m, true)) ∧
      (lateral (bodies a) ci ≤ nrm_threshold → OnNarrowphase bodies m ci =
        ({ m with m_collisions_wheel := m.m_collisions_wheel ++ [ci] }, false))) ∧
    ((bodies a).identifier = BodyID.SHOE_BODY ∧ (bodies b).identifier = BodyID.IDLER_BODY ∧
        m.m_idler_shoe = true →
      (nrm_threshold < lateral (bodies b) ci → OnNarrowphase bodies m ci = (m, true)) ∧
      (lateral (bodies b) ci ≤ nrm_threshold → OnNarrowphase bodies m ci =
        ({ m with m_collisions_idler := m.m_collisions_idler ++ [ci.SwapModels] }, false))) ∧
    ((bodies a).identifier = BodyID.SHOE_BODY ∧ (bodies b).identifier = BodyID.WHEEL_BODY ∧
        m.m_wheel_shoe = true →
      (nrm_threshold < lateral (bodies b) ci → OnNarrowphase bodies m ci = (m, true)) ∧
      (lateral (bodies b) ci ≤ nrm_threshold → OnNarrowphase bodies m ci =
        ({ m with m_collisions_wheel := m.m_collisions_wheel ++ [ci.SwapModels] }, false))) := by
  simp only [OnNarrowphase, hA, hB, ChContactable.asBody, shoeIsA, shoeIsB, lateral,
    ChBody.GetIdentifier, gt_iff_lt]
  refine ⟨?_, ?_, ?_, ?_⟩
  all_goals
    rintro ⟨h1, h2, h3⟩
    refine ⟨fun hl => ?_, fun hl => ?_⟩
    · simp [h1, h2, h3, hl]
    · simp [h1, h2, h3, not_lt.mpr hl]

/-- The lateral magnitude that a sample body computes for a sample collision is
the magnitude of the `y` the collision was built with. -/
theorem lateral_sample (n : Nat) (a b : ChContactable) (y : ℚ) :
    lateral (sampleStore n) (sampleCollision a b y) = |y| := by
  unfold lateral sampleStore sampleCollision
  split_ifs <;> simp [ChBody.TransformDirectionParentToLocal, sampleBody]

/-- C3 (witness): with both toggles enabled, an idler (body 3) against a shoe
(body 5): the computed lateral magnitudes 0.81 and the double just above 0.8
pass through; 0.79 and exactly 0.8 are suppressed and cached; and with the shoe
reported first, 0.79 is cached swapped. -/
theorem OnNarrowphase_threshold_witness :
    OnNarrowphase sampleStore ChTrackCollisionManager.new
        (sampleCollision (ChContactable.body 3) (ChContactable.body 5) double_0_81) =
      (ChTrackCollisionManager.new, true) ∧
    OnNarrowphase sampleStore ChTrackCollisionManager.new
        (sampleCollision (ChContactable.body 3) (ChContactable.body 5) double_above_0_8) =
      (ChTrackCollisionManager.new, true) ∧
    OnNarrowphase sampleStore ChTrackCollisionManager.new
        (sampleCollision (ChContactable.body 3) (ChContactable.body 5) double_0_79) =
      ({ ChTrackCollisionManager.new with
          m_collisions_idler := ChTrackCollisionManager.new.m_collisions_idler ++
            [sampleCollision (ChContactable.body 3) (ChContactable.body 5) double_0_79] },
        false) ∧
    OnNarrowphase sampleStore ChTrackCollisionManager.new
        (sampleCollision (ChContactable.body 3) (ChContactable.body 5) nrm_threshold) =
      ({ ChTrackCollisionManager.new with
          m_collisions_idler := ChTrackCollisionManager.new.m_collisions_idler ++
            [sampleCollision (ChContactable.body 3) (ChContactable.body 5) nrm_threshold] },
        false) ∧
    OnNarrowphase sampleStore ChTrackCollisionManager.new
        (sampleCollision (ChContactable.body 5) (ChContactable.body 3) double_0_79) =
      ({ ChTrackCollisionManager.new with
          m_collisions_idler := ChTrackCollisionManager.new.m_collisions_idler ++
            [(sampleCollision (ChContactable.body 5) (ChContactable.body 3)
              double_0_79).SwapModels] },
        false) :=
  ⟨((OnNarrowphase_threshold sampleStore ChTrackCollisionManager.new
      (sampleCollision (ChContactable.body 3) (ChContactable.body 5) double_0_81) 3 5 rfl rfl).1
      ⟨by decide, by decide, rfl⟩).1
      (by rw [lateral_sample]; norm_num [nrm_threshold, double_0_81, abs_of_pos]),
   ((OnNarrowphase_threshold sampleStore ChTrackCollisionManager.new
      (sampleCollision (ChContactable.body 3) (ChContactable.body 5) double_above_0_8) 3 5 rfl
      rfl).1 ⟨by decide, by decide, rfl⟩).1
      (by rw [lateral_sample]; norm_num [nrm_threshold, double_above_0_8, abs_of_pos]),
   ((OnNarrowphase_threshold sampleStore ChTrackCollisionManager.new
      (sampleCollision (ChContactable.body 3) (ChContactable.body 5) double_0_79) 3 5 rfl rfl).1
      ⟨by decide, by decide, rfl⟩).2
      (by rw [lateral_sample]; norm_num [nrm_threshold, double_0_79, abs_of_pos]),
   ((OnNarrowphase_threshold sampleStore ChTrackCollisionManager.new
      (sampleCollision (ChContactable.body 3) (ChContactable.body 5) nrm_threshold) 3 5 rfl
      rfl).1 ⟨by decide, by decide, rfl⟩).2
      (by rw [lateral_sample]; norm_num [nrm_threshold, abs_of_pos]),
   ((OnNarrowphase_threshold sampleStore ChTrackCollisionManager.new
      (sampleCollision (ChContactable.body 5) (ChContactable.body 3) double_0_79) 5 3 rfl
      rfl).2.2.1 ⟨by decide, by decide, rfl⟩).2
      (by rw [lateral_sample]; norm_num [nrm_threshold, double_0_79, abs_of_pos])⟩

theorem cacheOriented_nil (bodies : BodyStore) (role : BodyID) : CacheOriented bodies role [] := by
  intro r hr
  simp at hr

theorem cacheOriented_snoc {bodies : BodyStore} {role : BodyID} {l : List ChCollisionInfo}
    (hl : CacheOriented bodies role l) {r : ChCollisionInfo} {a b : Nat}
    (hA : r.modelA = ChContactable.body a) (hB : r.modelB = ChContactable.body b)
    (ha : (bodies a).identifier = role) (hb : (bodies b).identifier = BodyID.SHOE_BODY) :
    CacheOriented bodies role (l ++ [r]) := by
  intro r' hr'
  rcases List.mem_append.1 hr' with h | h
  · exact hl r' h
  · rw [List.mem_singleton] at h
    subst h
    exact ⟨a, b, hA, hB, ha, hb⟩

/-- One `OnNarrowphase` call keeps both caches oriented (non-shoe body as A,
shoe body as B). -/
theorem OnNarrowphase_preserves_orientation (bodies : BodyStore) (m : ChTrackCollisionManager)
    (ci : ChCollisionInfo)
    (hi : CacheOriented bodies BodyID.IDLER_BODY m.m_collisions_idler)
    (hw : CacheOriented bodies BodyID.WHEEL_BODY m.m_collisions_wheel) :
    CacheOriented bodies BodyID.IDLER_BODY (OnNarrowphase bodies m ci).1.m_collisions_idler ∧
    CacheOriented bodies BodyID.WHEEL_BODY (OnNarrowphase bodies m ci).1.m_collisions_wheel := by
  rcases OnNarrowphase_cases bodies m ci with h | ⟨a, b, hA, hB, ha, hb, _, h⟩ |
    ⟨a, b, hA, hB, ha, hb, _, h⟩ | ⟨a, b, hA, hB, ha, hb, _, h⟩ | ⟨a, b, hA, hB, ha, hb, _, h⟩ <;>
    rw [h]
  · exact ⟨hi, hw⟩
  · exact ⟨cacheOriented_snoc hi hA hB ha hb, hw⟩
  · exact ⟨hi, cacheOriented_snoc hw hA hB ha hb⟩
  · exact ⟨cacheOriented_snoc hi (show ci.SwapModels.modelA = _ from hB)
      (show ci.SwapModels.modelB = _ from hA) hb ha, hw⟩
  · exact ⟨hi, cacheOriented_snoc hw (show ci.SwapModels.modelA = _ from hB)
      (show ci.SwapModels.modelB = _ from hA) hb ha⟩

/-- A run of `OnNarrowphase` calls keeps both caches oriented. -/
theorem narrowphaseRun_oriented (bodies : BodyStore) (cs : List ChCollisionInfo) :
    ∀ m : ChTrackCollisionManager,
      CacheOriented bodies BodyID.IDLER_BODY m.m_collisions_idler →
      CacheOriented bodies BodyID.WHEEL_BODY m.m_collisions_wheel →
      CacheOriented bodies BodyID.IDLER_BODY (narrowphaseRun bodies m cs).m_collisions_idler ∧
      CacheOriented bodies BodyID.WHEEL_BODY (narrowphaseRun bodies m cs).m_collisions_wheel := by
  induction cs with
  | nil => intro m hi hw; exact ⟨hi, hw⟩
  | cons c cs ih =>
    intro m hi hw
    have h := OnNarrowphase_preserves_orientation bodies m c hi hw
    exact ih _ h.1 h.2

/-- C4: after `Reset`, whatever sequence of candidates `OnNarrowphase` is
called with, every record of the idler-shoe cache has an idler body as model A
and a shoe body as model B, and every record of the wheel-shoe cache has a
wheel body as model A and a shoe body as model B; and a candidate reported with
the shoe as A that is cached is stored with its models swapped. -/
theorem caches_keep_shoe_as_B (bodies : BodyStore) (m0 : ChTrackCollisionManager)
    (cs : List ChCollisionInfo) :
    CacheOriented bodies BodyID.IDLER_BODY
      (narrowphaseRun bodies (Reset m0) cs).m_collisions_idler ∧
    CacheOriented bodies BodyID.WHEEL_BODY
      (narrowphaseRun bodies (Reset m0) cs).m_collisions_wheel ∧
    ∀ (m : ChTrackCollisionManager) (ci : ChCollisionInfo) (a : Nat),
      ci.modelA = ChContactable.body a → (bodies a).identifier = BodyID.SHOE_BODY →
      (OnNarrowphase bodies m ci).2 = false →
      OnNarrowphase bodies m ci =
          ({ m with m_collisions_idler := m.m_collisions_idler ++ [ci.SwapModels] }, false) ∨
        OnNarrowphase bodies m ci =
          ({ m with m_collisions_wheel := m.m_collisions_wheel ++ [ci.SwapModels] }, false) := by
  have h := narrowphaseRun_oriented bodies cs (Reset m0)
    (cacheOriented_nil bodies _) (cacheOriented_nil bodies _)
  refine ⟨h.1, h.2, ?_⟩
  intro m ci a hA ha hf
  rcases OnNarrowphase_cases bodies m ci with h | ⟨a', b, hA', hB, ha', hb, _, h⟩ |
    ⟨a', b, hA', hB, ha', hb, _, h⟩ | ⟨a', b, hA', hB, ha', hb, _, h⟩ |
    ⟨a', b, hA', hB, ha', hb, _, h⟩
  · rw [h] at hf
    simp at hf
  · rw [hA] at hA'
    cases hA'
    rw [ha] at ha'
    cases ha'
  · rw [hA] at hA'
    cases hA'
    rw [ha] at ha'
    cases ha'
  · exact Or.inl h
  · exact Or.inr h

/-- C4 (witness): a run over two candidates, idler 3 against shoe 5 reported
in both orders, leaves both caches oriented, and the second candidate (shoe
reported as A) is stored swapped. -/
theorem caches_keep_shoe_as_B_witness :
    CacheOriented sampleStore BodyID.IDLER_BODY
      (narrowphaseRun sampleStore (Reset ChTrackCollisionManager.new)
        [sampleCollision (ChContactable.body 3) (ChContactable.body 5) 0,
         sampleCollision (ChContactable.body 5) (ChContactable.body 3) 0]).m_collisions_idler ∧
    (OnNarrowphase sampleStore ChTrackCollisionManager.new
          (sampleCollision (ChContactable.body 5) (ChContactable.body 3) 0) =
        ({ ChTrackCollisionManager.new with
            m_collisions_idler := ChTrackCollisionManager.new.m_collisions_idler ++
              [(sampleCollision (ChContactable.body 5) (ChContactable.body 3) 0).SwapModels] },
          false) ∨
      OnNarrowphase sampleStore ChTrackCollisionManager.new
          (sampleCollision (ChContactable.body 5) (ChContactable.body 3) 0) =
        ({ ChTrackCollisionManager.new with
            m_collisions_wheel := ChTrackCollisionManager.new.m_collisions_wheel ++
              [(sampleCollision (ChContactable.body 5) (ChContactable.body 3) 0).SwapModels] },
          false)) :=
  ⟨(caches_keep_shoe_as_B sampleStore ChTrackCollisionManager.new
      [sampleCollision (ChContactable.body 3) (ChContactable.body 5) 0,
       sampleCollision (ChContactable.body 5) (ChContactable.body 3) 0]).1,
   (caches_keep_shoe_as_B sampleStore ChTrackCollisionManager.new []).2.2
      ChTrackCollisionManager.new
      (sampleCollision (ChContactable.body 5) (ChContactable.body 3) 0) 5 rfl (by decide)
      (by
        simp [OnNarrowphase, shoeIsA, shoeIsB, sampleCollision, sampleStore,
          ChContactable.asBody, ChBody.GetIdentifier, ChBody.TransformDirectionParentToLocal,
          sampleBody, nrm_threshold, ChTrackCollisionManager.new]
        norm_num)⟩

end ChTrackCollisionManager

namespace ChTrackCustomContact

/-! ## ApplyForces, Setup, Update -/

variable {σ : Type}

/-- Effect of a run of loop bodies of `ApplyForces` on the load list, the
object counter and the time stamp. -/
theorem foldl_applyOne (law : ForceLaw σ) (calls : List (ChCollisionInfo × Bool)) :
    ∀ st : ChTrackCustomContact σ × ChVector,
      (calls.foldl (fun st call => applyOne law call.2 st call.1) st).1.loadlist =
          st.1.loadlist ++ (expectedPairs st.1.next_obj
            ((calls.map Prod.fst).zip (lawOutputs law st.1.derived st.2 calls))).flatten ∧
        (calls.foldl (fun st call => applyOne law call.2 st call.1) st).1.next_obj =
          st.1.next_obj + 2 * calls.length ∧
        (calls.foldl (fun st call => applyOne law call.2 st call.1) st).1.ChTime =
          st.1.ChTime := by
  induction calls with
  | nil =>
    intro st
    simp [lawOutputs, expectedPairs]
  | cons c cs ih =>
    intro st
    obtain ⟨h1, h2, h3⟩ := ih (applyOne law c.2 st c.1)
    simp only [List.foldl_cons, List.map_cons, lawOutputs, List.zip_cons_cons, expectedPairs,
      List.flatten_cons, List.length_cons]
    refine ⟨?_, ?_, ?_⟩
    · rw [h1]
      simp [applyOne, loadPair, List.zip]
    · rw [h2]
      simp only [applyOne]
      ring
    · rw [h3]
      rfl

/-- The two loops of `ApplyForces` are one run of loop bodies over the cached
calls. -/
theorem ApplyForces_eq_foldl (law : ForceLaw σ) (cm : ChTrackCollisionManager)
    (s : ChTrackCustomContact σ) :
    ApplyForces law cm s =
      ((cachedCalls cm).foldl (fun st call => applyOne law call.2 st call.1)
        ({ s with loadlist := [] }, ChVector.zero)).1 := by
  simp [ApplyForces, cachedCalls, List.foldl_append, List.foldl_map]

/-- The force law returns one force per call. -/
theorem lawOutputs_length (law : ForceLaw σ) (calls : List (ChCollisionInfo × Bool)) :
    ∀ (d : σ) (f : ChVector), (lawOutputs law d f calls).length = calls.length := by
  induction calls with
  | nil => intro d f; rfl
  | cons c cs ih =>
    intro d f
    simp [lawOutputs, ih]

/-- Every expected pair consists of two loads. -/
theorem expectedPairs_flatten_length (xs : List (ChCollisionInfo × ChVector)) :
    ∀ n : Nat, (expectedPairs n xs).flatten.length = 2 * xs.length := by
  induction xs with
  | nil => intro n; rfl
  | cons x xs ih =>
    intro n
    simp only [expectedPairs, List.flatten_cons, List.length_append, ih, loadPair,
      List.length_cons, List.length_nil]
    ring

/-- The load objects of the expected pairs are numbered from `n` upwards. -/
theorem expectedPairs_obj_ge (xs : List (ChCollisionInfo × ChVector)) :
    ∀ n : Nat, ∀ l ∈ (expectedPairs n xs).flatten, n ≤ l.obj := by
  induction xs with
  | nil =>
    intro n l hl
    simp [expectedPairs] at hl
  | cons x xs ih =>
    intro n l hl
    simp only [expectedPairs, List.flatten_cons, List.mem_append, loadPair, List.mem_cons,
      List.mem_singleton, List.not_mem_nil, or_false] at hl
    rcases hl with (h | h) | h
    · rw [h]
    · rw [h]
      exact Nat.le_succ n
    · exact le_trans (Nat.le_add_right n 2) (ih (n + 2) l h)

/-- The two forces of every expected pair cancel. -/
theorem expectedPairs_pair_sum (xs : List (ChCollisionInfo × ChVector)) :
    ∀ n : Nat, ∀ p ∈ expectedPairs n xs, (p.map fun l => l.force).sum = 0 := by
  induction xs with
  | nil =>
    intro n p hp
    simp [expectedPairs] at hp
  | cons x xs ih =>
    intro n p hp
    simp only [expectedPairs, List.mem_cons] at hp
    rcases hp with h | h
    · rw [h]
      simp [loadPair]
    · exact ih (n + 2) p h

/-- The forces of all expected pairs cancel. -/
theorem expectedPairs_total_sum (xs : List (ChCollisionInfo × ChVector)) (n : Nat) :
    ((expectedPairs n xs).flatten.map fun l => l.force).sum = 0 := by
  rw [List.map_flatten, List.sum_flatten, List.map_map]
  apply List.sum_eq_zero
  intro v hv
  obtain ⟨p, hp, rfl⟩ := List.mem_map.1 hv
  exact expectedPairs_pair_sum xs n p hp

/-- The load list that `ApplyForces` leaves: the expected pairs of the cached
calls with the forces the law returned, numbered from the object counter. -/
theorem ApplyForces_loadlist (law : ForceLaw σ) (cm : ChTrackCollisionManager)
    (s : ChTrackCustomContact σ) :
    (ApplyForces law cm s).loadlist =
      (expectedPairs s.next_obj (((cachedCalls cm).map Prod.fst).zip
        (lawOutputs law s.derived ChVector.zero (cachedCalls cm)))).flatten := by
  rw [ApplyForces_eq_foldl]
  have h := (foldl_applyOne law (cachedCalls cm) ({ s with loadlist := [] }, ChVector.zero)).1
  simpa using h

/-- The cached calls are as many as the cached collisions. -/
theorem cachedCalls_length (cm : ChTrackCollisionManager) :
    (cachedCalls cm).length = cm.m_collisions_idler.length + cm.m_collisions_wheel.length := by
  simp [cachedCalls]

/-- C5: whatever the load list held before, after `ApplyForces` it holds
exactly two loads per cached collision (idler-shoe and wheel-shoe), and no
load object that was in the list before the call is in it afterwards
(the load objects of an earlier step were created before the call). -/
theorem ApplyForces_replaces_loads (law : ForceLaw σ) (cm : ChTrackCollisionManager)
    (s : ChTrackCustomContact σ) (hobj : ∀ l ∈ s.loadlist, l.obj < s.next_obj) :
    (ApplyForces law cm s).loadlist.length =
        2 * (cm.m_collisions_idler.length + cm.m_collisions_wheel.length) ∧
      ∀ l ∈ s.loadlist, l ∉ (ApplyForces law cm s).loadlist ∧
        ∀ l' ∈ (ApplyForces law cm s).loadlist, l'.obj ≠ l.obj := by
  rw [ApplyForces_loadlist]
  refine ⟨?_, ?_⟩
  · rw [expectedPairs_flatten_length, List.length_zip, List.length_map, lawOutputs_length,
      min_self, cachedCalls_length]
  · intro l hl
    have key : ∀ l' ∈ (expectedPairs s.next_obj (((cachedCalls cm).map Prod.fst).zip
        (lawOutputs law s.derived ChVector.zero (cachedCalls cm)))).flatten, l'.obj ≠ l.obj := by
      intro l' hl' heq
      have h1 := expectedPairs_obj_ge _ _ l' hl'
      have h2 := hobj l hl
      omega
    exact ⟨fun hmem => key l hmem rfl, key⟩

/-- C5 (witness): the sample container, holding the two loads of an earlier
step, ends with 2 * (1 + 1) loads, none of them an earlier load. -/
theorem ApplyForces_replaces_loads_witness :
    (ApplyForces sampleLaw sampleCaches sampleContainer).loadlist.length =
        2 * (sampleCaches.m_collisions_idler.length + sampleCaches.m_collisions_wheel.length) ∧
      ∀ l ∈ sampleContainer.loadlist, l ∉ (ApplyForces sampleLaw sampleCaches
          sampleContainer).loadlist ∧
        ∀ l' ∈ (ApplyForces sampleLaw sampleCaches sampleContainer).loadlist, l'.obj ≠ l.obj :=
  ApplyForces_replaces_loads sampleLaw sampleCaches sampleContainer (by decide)

/-- C6: `ApplyForces` leaves, for every cached collision `c` in turn (the
idler-shoe cache with `is_idler = true`, then the wheel-shoe cache with
`is_idler = false`), exactly the pair of loads `-F` on body A of `c` at `vpA`
and `+F` on body B of `c` at `vpB`, where `F` is the force the law returned for
`c`; there is one force per cached collision; the two forces of every pair sum
to zero, and so does the sum of all injected forces. -/
theorem ApplyForces_action_reaction (law : ForceLaw σ) (cm : ChTrackCollisionManager)
    (s : ChTrackCustomContact σ) :
    (ApplyForces law cm s).loadlist =
        (expectedPairs s.next_obj (((cachedCalls cm).map Prod.fst).zip
          (lawOutputs law s.derived ChVector.zero (cachedCalls cm)))).flatten ∧
      (lawOutputs law s.derived ChVector.zero (cachedCalls cm)).length =
        cm.m_collisions_idler.length + cm.m_collisions_wheel.length ∧
      (∀ p ∈ expectedPairs s.next_obj (((cachedCalls cm).map Prod.fst).zip
          (lawOutputs law s.derived ChVector.zero (cachedCalls cm))),
        (p.map fun l => l.force).sum = 0) ∧
      ((ApplyForces law cm s).loadlist.map fun l => l.force).sum = 0 := by
  refine ⟨ApplyForces_loadlist law cm s, ?_, expectedPairs_pair_sum _ _, ?_⟩
  · rw [lawOutputs_length, cachedCalls_length]
  · rw [ApplyForces_loadlist]
    exact expectedPairs_total_sum _ _

end ChTrackCustomContact

namespace ChTrackCustomContact

variable {σ : Type}

/-- C6 (witness): for the sample caches and the sample law the load list is
the idler pair with forces (0, 0, -1), (0, 0, 1) followed by the wheel pair
with forces (0, 0, -2), (0, 0, 2), and the forces sum to zero. -/
theorem ApplyForces_action_reaction_witness :
    (ApplyForces sampleLaw sampleCaches sampleContainer).loadlist =
        [⟨2, 3, ⟨0, 0, -1⟩, false, ⟨1, 0, 0⟩, false⟩, ⟨3, 5, ⟨0, 0, 1⟩, false, ⟨1, 0, 1⟩, false⟩,
         ⟨4, 7, ⟨0, 0, -2⟩, false, ⟨1, 0, 0⟩, false⟩, ⟨5, 5, ⟨0, 0, 2⟩, false, ⟨1, 0, 1⟩, false⟩] ∧
      ((ApplyForces sampleLaw sampleCaches sampleContainer).loadlist.map fun l => l.force).sum =
        0 :=
  ⟨(ApplyForces_action_reaction sampleLaw sampleCaches sampleContainer).1.trans (by decide),
   (ApplyForces_action_reaction sampleLaw sampleCaches sampleContainer).2.2.2⟩

/-- The instrumented law logs every call it receives, in order. -/
theorem foldl_traceCalls_log (law : ForceLaw σ) (calls : List (ChCollisionInfo × Bool)) :
    ∀ st : ChTrackCustomContact (σ × List (ChCollisionInfo × Bool)) × ChVector,
      (calls.foldl (fun st call => applyOne (traceCalls law) call.2 st call.1)
        st).1.derived.2 = st.1.derived.2 ++ calls := by
  induction calls with
  | nil => intro st; simp
  | cons c cs ih =>
    intro st
    rw [List.foldl_cons, ih]
    simp [applyOne, traceCalls]

/-- The instrumented law returns the forces of the law it wraps. -/
theorem lawOutputs_traceCalls (law : ForceLaw σ) (calls : List (ChCollisionInfo × Bool)) :
    ∀ (d : σ) (log : List (ChCollisionInfo × Bool)) (f : ChVector),
      lawOutputs (traceCalls law) (d, log) f calls = lawOutputs law d f calls := by
  induction calls with
  | nil => intro d log f; rfl
  | cons c cs ih =>
    intro d log f
    simp only [lawOutputs, traceCalls]
    rw [ih]

/-- A run of `Update` calls keeps the load list, the derived-class state and
the object counter. -/
theorem foldl_Update (updates : List (ℚ × Bool)) :
    ∀ s : ChTrackCustomContact σ,
      (updates.foldl (fun s u => Update s u.1 u.2) s).loadlist = s.loadlist ∧
      (updates.foldl (fun s u => Update s u.1 u.2) s).derived = s.derived ∧
      (updates.foldl (fun s u => Update s u.1 u.2) s).next_obj = s.next_obj := by
  induction updates with
  | nil => intro s; exact ⟨rfl, rfl, rfl⟩
  | cons u us ih =>
    intro s
    rw [List.foldl_cons]
    exact ih (Update s u.1 u.2)

/-- C7: in a step made of one `Setup` followed by any number of `Update`
calls, the force law is invoked exactly once for each cached collision (the
invocation log of the instrumented law grows by the cached calls, so by
`|idler cache| + |wheel cache|` entries, whatever the number of updates), the
instrumentation does not change the loads, the load list after the updates is
the one `Setup` produced, and each `Update(t)` changes only the stored time,
which it sets to `t`. -/
theorem force_law_invoked_once_per_step (law : ForceLaw σ) (cm : ChTrackCollisionManager)
    (s : ChTrackCustomContact σ) (log : List (ChCollisionInfo × Bool))
    (updates : List (ℚ × Bool)) :
    (stepRun (traceCalls law) cm ⟨s.ChTime, s.loadlist, (s.derived, log), s.next_obj⟩
        updates).derived.2 = log ++ cachedCalls cm ∧
      (stepRun (traceCalls law) cm ⟨s.ChTime, s.loadlist, (s.derived, log), s.next_obj⟩
        updates).derived.2.length =
        log.length + (cm.m_collisions_idler.length + cm.m_collisions_wheel.length) ∧
      (stepRun (traceCalls law) cm ⟨s.ChTime, s.loadlist, (s.derived, log), s.next_obj⟩
        updates).loadlist = (stepRun law cm s updates).loadlist ∧
      (stepRun law cm s updates).loadlist = (Setup law cm s).loadlist ∧
      ∀ (s' : ChTrackCustomContact σ) (t : ℚ) (a : Bool),
        Update s' t a = { s' with ChTime := t } := by
  have hlog : (stepRun (traceCalls law) cm ⟨s.ChTime, s.loadlist, (s.derived, log), s.next_obj⟩
      updates).derived.2 = log ++ cachedCalls cm := by
    unfold stepRun
    rw [(foldl_Update updates _).2.1]
    simp only [Setup, ChLoadContainer_Update]
    rw [ApplyForces_eq_foldl, foldl_traceCalls_log]
  refine ⟨hlog, ?_, ?_, ?_, fun s' t a => rfl⟩
  · rw [hlog, List.length_append, cachedCalls_length]
  · unfold stepRun
    rw [(foldl_Update updates _).1, (foldl_Update updates _).1]
    simp only [Setup, ChLoadContainer_Update]
    rw [ApplyForces_loadlist, ApplyForces_loadlist, lawOutputs_traceCalls]
  · unfold stepRun
    exact (foldl_Update updates _).1

end ChTrackCustomContact

namespace ChTrackContactManager

/-! ## Process -/

/-- Binding the part handles changes neither the flags, nor the collection
switch, nor the log buffer, nor any contact list. -/
theorem bindParts_frame (m : ChTrackContactManager) (v : ChTrackedVehicle) :
    (bindParts m v).m_flags = m.m_flags ∧
    (bindParts m v).m_collect = m.m_collect ∧
    (bindParts m v).m_csv = m.m_csv ∧
    (bindParts m v).m_chassis_contacts = m.m_chassis_contacts ∧
    (bindParts m v).m_sprocket_L_contacts = m.m_sprocket_L_contacts ∧
    (bindParts m v).m_sprocket_R_contacts = m.m_sprocket_R_contacts ∧
    (bindParts m v).m_idler_L_contacts = m.m_idler_L_contacts ∧
    (bindParts m v).m_idler_R_contacts = m.m_idler_R_contacts ∧
    (bindParts m v).m_shoe_L_contacts = m.m_shoe_L_contacts ∧
    (bindParts m v).m_shoe_R_contacts = m.m_shoe_R_contacts := by
  unfold bindParts
  by_cases hi : m.m_initialized = true
  · simp [hi]
  · by_cases hs : (v.GetTrackAssembly VehicleSide.LEFT).shoes.length > m.m_shoe_index_L ∧
        (v.GetTrackAssembly VehicleSide.RIGHT).shoes.length > m.m_shoe_index_R
    · simp [hi, hs]
    · simp [hi, hs]

/-- C8: with empty monitor flags, `Process` succeeds for every vehicle and
every prior state, leaves the seven part contact lists and the log buffer
exactly as they were, and hands no contact to `OnReportContact` (the engine
traversal is not started). -/
theorem Process_without_flags (m : ChTrackContactManager) (v : ChTrackedVehicle)
    (h0 : m.m_flags = 0) :
    ∃ m', Process m v = some ⟨m', []⟩ ∧
      m'.m_chassis_contacts = m.m_chassis_contacts ∧
      m'.m_sprocket_L_contacts = m.m_sprocket_L_contacts ∧
      m'.m_sprocket_R_contacts = m.m_sprocket_R_contacts ∧
      m'.m_idler_L_contacts = m.m_idler_L_contacts ∧
      m'.m_idler_R_contacts = m.m_idler_R_contacts ∧
      m'.m_shoe_L_contacts = m.m_shoe_L_contacts ∧
      m'.m_shoe_R_contacts = m.m_shoe_R_contacts ∧
      m'.m_csv = m.m_csv := by
  obtain ⟨hf, _, hcsv, h1, h2, h3, h4, h5, h6, h7⟩ := bindParts_frame m v
  refine ⟨bindParts m v, ?_, h1, h2, h3, h4, h5, h6, h7, hcsv⟩
  unfold Process
  simp [hf, h0]

/-- C8 (witness): a manager with no flag whose left sprocket list and log
buffer are not empty, on a vehicle with a resolved hull contact. -/
theorem Process_without_flags_witness :
    ∃ m', Process { hullOnlyManager with m_flags := 0, m_csv := [[CsvCell.size 1]] }
        (sampleVehicle [sampleContact (ChContactable.body 0) (ChContactable.body 9)]) =
        some ⟨m', []⟩ ∧
      m'.m_chassis_contacts = [] ∧
      m'.m_sprocket_L_contacts = [sampleRecord] ∧
      m'.m_sprocket_R_contacts = [] ∧
      m'.m_idler_L_contacts = [] ∧
      m'.m_idler_R_contacts = [] ∧
      m'.m_shoe_L_contacts = [] ∧
      m'.m_shoe_R_contacts = [] ∧
      m'.m_csv = [[CsvCell.size 1]] :=
  Process_without_flags { hullOnlyManager with m_flags := 0, m_csv := [[CsvCell.size 1]] }
    (sampleVehicle [sampleContact (ChContactable.body 0) (ChContactable.body 9)]) rfl

end ChTrackContactManager

namespace ChTrackContactManager

/-- The two tests of a hull / sprocket / idler block append the records owed
to the part by the contact. -/
theorem pushMatching_eq (b : Nat) (c : ReportedContact) (l : List ContactInfo) :
    pushMatching b c l =
      l ++ ((if c.modA = ChContactable.body b then [mkInfo c.pA c] else []) ++
        (if c.modB = ChContactable.body b then [mkInfo c.pB c] else [])) := by
  unfold pushMatching
  split_ifs <;> simp

/-- With a bound part handle the log loop over a list yields the local points
of all its records. -/
theorem localPoints_bound (bodies : BodyStore) (b : Nat) (l : List ContactInfo) :
    localPoints bodies (some b) l =
      some (l.flatMap fun c =>
        CsvCell.ofVector ((bodies b).TransformPointParentToLocal c.m_point)) := by
  induction l with
  | nil => rfl
  | cons c cs ih => simp [localPoints, ih]

/-- The log loop over an empty list writes nothing, whatever the handle. -/
theorem localPoints_nil (bodies : BodyStore) (part : Option Nat) :
    localPoints bodies part [] = some [] := rfl

/-- The guarded log loop over an empty list writes nothing, whatever the
handle. -/
theorem localPointsGuarded_nil (bodies : BodyStore) (part : Option Nat) :
    localPointsGuarded bodies part [] = some [] := by
  cases part <;> rfl

/-- The collection block of `Process` changes at most the log buffer. -/
theorem collect_frame (m m' : ChTrackContactManager) (v : ChTrackedVehicle)
    (h : collect m v = some m') : m' = { m with m_csv := m'.m_csv } := by
  unfold collect at h
  by_cases hc : m.m_collect = true
  · rw [if_pos hc] at h
    dsimp only at h
    split_ifs at h
    · simp only [Option.bind_eq_bind, Option.bind_eq_some, Option.pure_def,
        Option.some.injEq] at h
      obtain ⟨_, _, _, _, _, _, _, _, _, _, _, _, _, _, rfl⟩ := h
      rfl
    · cases h
      rfl
  · rw [if_neg hc] at h
    cases h
    rfl

/-- A reported contact is resolved exactly when the guard of `OnReportContact`
does not reject it. -/
theorem resolved_iff (c : ReportedContact) :
    c.resolved ↔ ¬ (0 < c.distance ∨ c.react_forces.IsNull = true) := by
  simp [ReportedContact.resolved, ChVector.isNull_iff, not_or, not_lt]

/-- With only the hull flag set and the hull handle bound, `OnReportContact`
appends to the hull list the records owed to the hull and changes nothing
else. -/
theorem OnReportContact_hull_only (m : ChTrackContactManager) (c : ReportedContact) (h : Nat)
    (hf : m.m_flags = TrackedCollisionFlag.CHASSIS) (hc : m.m_chassis = some h) :
    OnReportContact m c =
      some ({ m with m_chassis_contacts := m.m_chassis_contacts ++ recordsOf h [c] }, true) := by
  have e2 : (TrackedCollisionFlag.CHASSIS &&& TrackedCollisionFlag.SPROCKET_LEFT != 0) = false := by
    decide
  have e3 : (TrackedCollisionFlag.CHASSIS &&& TrackedCollisionFlag.SPROCKET_RIGHT != 0) = false := by
    decide
  have e4 : (TrackedCollisionFlag.CHASSIS &&& TrackedCollisionFlag.IDLER_LEFT != 0) = false := by
    decide
  have e5 : (TrackedCollisionFlag.CHASSIS &&& TrackedCollisionFlag.IDLER_RIGHT != 0) = false := by
    decide
  have e6 : (TrackedCollisionFlag.CHASSIS &&& TrackedCollisionFlag.SHOES_LEFT != 0) = false := by
    decide
  have e7 : (TrackedCollisionFlag.CHASSIS &&& TrackedCollisionFlag.SHOES_RIGHT != 0) = false := by
    decide
  have e1 : (TrackedCollisionFlag.CHASSIS &&& TrackedCollisionFlag.CHASSIS != 0) = true := by
    decide
  by_cases hn : 0 < c.distance ∨ c.react_forces.IsNull = true
  · have hr : ¬ c.resolved := fun hr => (resolved_iff c).1 hr hn
    simp [OnReportContact, hn, recordsOf, hr]
  · have hr : c.resolved := (resolved_iff c).2 hn
    unfold OnReportContact
    rw [if_neg hn]
    simp only [IsFlagSet, hf, hc, e1, e2, e3, e4, e5, e6, e7, if_true, Option.bind_eq_bind,
      Option.some_bind, Option.pure_def, ↓reduceIte, Bool.false_eq_true, pushMatching_eq]
    simp [recordsOf, hr]

/-- The records owed by a list of contacts are those owed by its head
followed by those owed by its tail. -/
theorem recordsOf_cons (h : Nat) (c : ReportedContact) (cs : List ReportedContact) :
    recordsOf h (c :: cs) = recordsOf h [c] ++ recordsOf h cs := by
  simp [recordsOf]

/-- With only the hull flag set and the hull handle bound, the traversal hands
every contact to the callback and leaves in the hull list the records owed to
the hull, after those already there. -/
theorem ReportAllContacts_hull_only (h : Nat) (cs : List ReportedContact) :
    ∀ m : ChTrackContactManager, m.m_flags = TrackedCollisionFlag.CHASSIS →
      m.m_chassis = some h →
      ReportAllContacts cs m =
        some ({ m with m_chassis_contacts := m.m_chassis_contacts ++ recordsOf h cs }, cs) := by
  induction cs with
  | nil =>
    intro m _ _
    simp [ReportAllContacts, recordsOf]
  | cons c cs ih =>
    intro m hf hc
    rw [ReportAllContacts, OnReportContact_hull_only m c h hf hc]
    simp only [Option.bind_eq_bind, Option.some_bind, if_true]
    rw [ih { m with m_chassis_contacts := m.m_chassis_contacts ++ recordsOf h [c] } hf hc]
    simp [recordsOf]

/-- One `Process` call with only the hull flag set. -/
theorem Process_hull_only (m : ChTrackContactManager) (v : ChTrackedVehicle)
    (hf : m.m_flags = TrackedCollisionFlag.CHASSIS)
    (hb : m.m_initialized = true → m.m_chassis ≠ none) :
    ∃ m' h, Process m v = some ⟨m', v.contacts⟩ ∧
      m'.m_flags = TrackedCollisionFlag.CHASSIS ∧ m'.m_initialized = true ∧
      m'.m_chassis = some h ∧
      m'.m_chassis_contacts = recordsOf h v.contacts ∧
      m'.m_sprocket_L_contacts = [] ∧ m'.m_sprocket_R_contacts = [] ∧
      m'.m_idler_L_contacts = [] ∧ m'.m_idler_R_contacts = [] ∧
      m'.m_shoe_L_contacts = [] ∧ m'.m_shoe_R_contacts = [] := by
  have hf1 : (bindParts m v).m_flags = TrackedCollisionFlag.CHASSIS :=
    (bindParts_frame m v).1.trans hf
  have hinit : (bindParts m v).m_initialized = true := by
    unfold bindParts
    by_cases hi : m.m_initialized = true
    · simp [hi]
    · by_cases hs : (v.GetTrackAssembly VehicleSide.LEFT).shoes.length > m.m_shoe_index_L ∧
          (v.GetTrackAssembly VehicleSide.RIGHT).shoes.length > m.m_shoe_index_R
      · simp [hi, hs]
      · simp [hi, hs]
  have hc : ∃ h, (bindParts m v).m_chassis = some h := by
    unfold bindParts
    by_cases hi : m.m_initialized = true
    · obtain ⟨h, hh⟩ := Option.ne_none_iff_exists'.1 (hb hi)
      exact ⟨h, by simp [hi, hh]⟩
    · by_cases hs : (v.GetTrackAssembly VehicleSide.LEFT).shoes.length > m.m_shoe_index_L ∧
          (v.GetTrackAssembly VehicleSide.RIGHT).shoes.length > m.m_shoe_index_R
      · exact ⟨v.chassis, by simp [hi, hs]⟩
      · exact ⟨v.chassis, by simp [hi, hs]⟩
  obtain ⟨h, hc⟩ := hc
  have hne : ¬ (bindParts m v).m_flags = 0 := by
    rw [hf1]
    decide
  have hrep := ReportAllContacts_hull_only h v.contacts (clearLists (bindParts m v)) hf1 hc
  have hcol : ∃ m', collect { clearLists (bindParts m v) with
      m_chassis_contacts := (clearLists (bindParts m v)).m_chassis_contacts ++
        recordsOf h v.contacts } v = some m' := by
    unfold collect
    simp only [clearLists, hc, localPoints_bound, localPoints_nil, localPointsGuarded_nil,
      Option.bind_eq_bind, Option.some_bind, Option.pure_def]
    split_ifs <;> exact ⟨_, rfl⟩
  obtain ⟨m', hm'⟩ := hcol
  have hfr := collect_frame _ _ _ hm'
  refine ⟨m', h, ?_, ?_⟩
  · unfold Process
    simp only [hne, if_false, hrep, Option.bind_eq_bind, Option.some_bind, hm', Option.pure_def]
  · rw [hfr]
    simp [clearLists, hf1, hinit, hc]

/-- C9 (counterexample): with only the hull flag set, a `Process` call on a
manager whose left sprocket list holds a record leaves that list empty, not
equal to what it was before the call. -/
theorem hull_only_clears_other_lists :
    hullOnlyManager.m_flags = TrackedCollisionFlag.CHASSIS ∧
    hullOnlyManager.m_sprocket_L_contacts = [sampleRecord] ∧
    ∃ m', Process hullOnlyManager (sampleVehicle []) = some ⟨m', []⟩ ∧
      m'.m_sprocket_L_contacts = [] ∧
      m'.m_sprocket_L_contacts ≠ hullOnlyManager.m_sprocket_L_contacts :=
  ⟨rfl, rfl, _, rfl, rfl, by decide⟩

/-- C9 (amended): with only the hull flag set (and the hull handle bound if the
manager is already initialised), after each call of every non-empty sequence of
`Process` calls the hull list holds exactly the records owed to the hull body
by the resolved contacts of that call's step, and each of the other six lists
is empty (cleared and not repopulated), whatever the lists held before. -/
theorem hull_only_monitoring (vs : List ChTrackedVehicle) :
    ∀ (m : ChTrackContactManager) (v : ChTrackedVehicle),
      m.m_flags = TrackedCollisionFlag.CHASSIS →
      (m.m_initialized = true → m.m_chassis ≠ none) →
      ∃ m' h, processRun m (vs ++ [v]) = some m' ∧
        m'.m_chassis = some h ∧
        m'.m_chassis_contacts = recordsOf h v.contacts ∧
        m'.m_sprocket_L_contacts = [] ∧ m'.m_sprocket_R_contacts = [] ∧
        m'.m_idler_L_contacts = [] ∧ m'.m_idler_R_contacts = [] ∧
        m'.m_shoe_L_contacts = [] ∧ m'.m_shoe_R_contacts = [] := by
  induction vs with
  | nil =>
    intro m v hf hb
    obtain ⟨m', h, hp, _, _, hc, hl⟩ := Process_hull_only m v hf hb
    refine ⟨m', h, ?_, hc, hl⟩
    simp [processRun, hp]
  | cons v0 vs ih =>
    intro m v hf hb
    obtain ⟨m1, h1, hp, hf1, _, hc1, _⟩ := Process_hull_only m v0 hf hb
    obtain ⟨m', h, hrun, hrest⟩ := ih m1 v hf1 (fun _ => by rw [hc1]; simp)
    refine ⟨m', h, ?_, hrest⟩
    simp [processRun, hp, hrun]

/-- C9 (witness): from the manager whose left sprocket list holds a stale
record, two steps with only the hull flag set; the second step has one resolved
contact with the hull (body 0) as body A. -/
theorem hull_only_monitoring_witness :
    ∃ m' h, processRun hullOnlyManager
        ([sampleVehicle []] ++
          [sampleVehicle [sampleContact (ChContactable.body 0) (ChContactable.body 9)]]) =
        some m' ∧
      m'.m_chassis = some h ∧
      m'.m_chassis_contacts = recordsOf h
        (sampleVehicle [sampleContact (ChContactable.body 0) (ChContactable.body 9)]).contacts ∧
      m'.m_sprocket_L_contacts = [] ∧ m'.m_sprocket_R_contacts = [] ∧
      m'.m_idler_L_contacts = [] ∧ m'.m_idler_R_contacts = [] ∧
      m'.m_shoe_L_contacts = [] ∧ m'.m_shoe_R_contacts = [] :=
  hull_only_monitoring [sampleVehicle []] hullOnlyManager
    (sampleVehicle [sampleContact (ChContactable.body 0) (ChContactable.body 9)])
    rfl (by decide)

end ChTrackContactManager

namespace ChTrackContactManager

/-! ## GetSprocketResistiveTorque -/

/-- The accumulation loop of `GetSprocketResistiveTorque` adds to the
accumulator the sum of the terms of the records. -/
theorem torque_loop (C : ChVector) (l : List ContactInfo) :
    ∀ acc : ChVector,
      l.foldl
          (fun torque c =>
            torque + ((c.m_point - C).Cross (c.m_csys.mulVec c.m_force) +
              c.m_csys.mulVec c.m_torque))
          acc = acc + torqueAbout C l := by
  induction l with
  | nil =>
    intro acc
    simp [torqueAbout]
  | cons c cs ih =>
    intro acc
    rw [List.foldl_cons, ih]
    simp [torqueAbout, add_assoc]

/-- With the sprocket handle of the side unbound, `GetSprocketResistiveTorque`
dereferences the null handle, whatever the list holds. -/
theorem GetSprocketResistiveTorque_unbound (bodies : BodyStore) (m : ChTrackContactManager) :
    (m.m_sprocket_L = none → GetSprocketResistiveTorque bodies m VehicleSide.LEFT = none) ∧
    (m.m_sprocket_R = none → GetSprocketResistiveTorque bodies m VehicleSide.RIGHT = none) := by
  constructor
  · intro h
    simp [GetSprocketResistiveTorque, h]
  · intro h
    simp [GetSprocketResistiveTorque, h]

/-- C10 (counterexample): on a freshly constructed manager the left sprocket
contact list is empty, yet `GetSprocketResistiveTorque(LEFT)` does not return
the zero vector: the sprocket handle is still null and is dereferenced (for the
sprocket position) before the loop over the list. -/
theorem torque_of_fresh_manager_is_not_zero :
    ChTrackContactManager.new.m_sprocket_L_contacts = [] ∧
    GetSprocketResistiveTorque sampleStore ChTrackContactManager.new VehicleSide.LEFT = none ∧
    GetSprocketResistiveTorque sampleStore ChTrackContactManager.new VehicleSide.LEFT ≠
      some 0 :=
  ⟨rfl, rfl, by
    intro h
    have e : GetSprocketResistiveTorque sampleStore ChTrackContactManager.new
        VehicleSide.LEFT = none := rfl
    rw [e] at h
    cases h⟩

/-- C10 (amended): when the sprocket handle of the side is bound, to the body
`g`, `GetSprocketResistiveTorque(side)` returns the sum over that side's
sprocket contact list of `(P - C) x (R*f) + R*t`, `C` being the position of
`g`; it returns the zero vector when that list is empty and `(P - C) x F + T`
when it holds the single record with point `P`, global force `F = R*f` and
global torque `T = R*t`; `LEFT` uses the left list and the left sprocket,
`RIGHT` the right ones. -/
theorem GetSprocketResistiveTorque_sum (bodies : BodyStore) (m : ChTrackContactManager) :
    (∀ g : Nat, m.m_sprocket_L = some g →
      GetSprocketResistiveTorque bodies m VehicleSide.LEFT =
        some (torqueAbout (bodies g).GetPos m.m_sprocket_L_contacts) ∧
      (m.m_sprocket_L_contacts = [] →
        GetSprocketResistiveTorque bodies m VehicleSide.LEFT = some 0) ∧
      (∀ r : ContactInfo, m.m_sprocket_L_contacts = [r] →
        GetSprocketResistiveTorque bodies m VehicleSide.LEFT =
          some ((r.m_point - (bodies g).GetPos).Cross (r.m_csys.mulVec r.m_force) +
            r.m_csys.mulVec r.m_torque))) ∧
    (∀ g : Nat, m.m_sprocket_R = some g →
      GetSprocketResistiveTorque bodies m VehicleSide.RIGHT =
        some (torqueAbout (bodies g).GetPos m.m_sprocket_R_contacts) ∧
      (m.m_sprocket_R_contacts = [] →
        GetSprocketResistiveTorque bodies m VehicleSide.RIGHT = some 0) ∧
      (∀ r : ContactInfo, m.m_sprocket_R_contacts = [r] →
        GetSprocketResistiveTorque bodies m VehicleSide.RIGHT =
          some ((r.m_point - (bodies g).GetPos).Cross (r.m_csys.mulVec r.m_force) +
            r.m_csys.mulVec r.m_torque))) := by
  have hL : ∀ g : Nat, m.m_sprocket_L = some g →
      GetSprocketResistiveTorque bodies m VehicleSide.LEFT =
        some (torqueAbout (bodies g).GetPos m.m_sprocket_L_contacts) := by
    intro g hg
    simp only [GetSprocketResistiveTorque, hg, if_true, Option.bind_eq_bind, Option.some_bind,
      Option.pure_def, torque_loop]
    rw [show ChVector.zero = (0 : ChVector) from rfl, zero_add]
  have hR : ∀ g : Nat, m.m_sprocket_R = some g →
      GetSprocketResistiveTorque bodies m VehicleSide.RIGHT =
        some (torqueAbout (bodies g).GetPos m.m_sprocket_R_contacts) := by
    intro g hg
    simp only [GetSprocketResistiveTorque, hg, reduceCtorEq, if_false, Option.bind_eq_bind,
      Option.some_bind, Option.pure_def, torque_loop]
    rw [show ChVector.zero = (0 : ChVector) from rfl, zero_add]
  constructor
  · intro g hg
    refine ⟨hL g hg, ?_, ?_⟩
    · intro he
      rw [hL g hg, he]
      simp [torqueAbout]
    · intro r he
      rw [hL g hg, he]
      simp [torqueAbout]
  · intro g hg
    refine ⟨hR g hg, ?_, ?_⟩
    · intro he
      rw [hR g hg, he]
      simp [torqueAbout]
    · intro r he
      rw [hR g hg, he]
      simp [torqueAbout]

/-- C10 (witness): with the left sprocket bound to body 1 (at the origin), one
record at (0, 1, 0) with force (1, 0, 0) and torque (0, 0, 3) gives the torque
(0, 0, 2); with the right sprocket bound and the right list empty the torque is
the zero vector. -/
theorem GetSprocketResistiveTorque_sum_witness :
    GetSprocketResistiveTorque sampleStore torqueManager VehicleSide.LEFT =
      some ⟨0, 0, 2⟩ ∧
    GetSprocketResistiveTorque sampleStore torqueManager VehicleSide.RIGHT = some 0 :=
  ⟨(((GetSprocketResistiveTorque_sum sampleStore torqueManager).1 1 rfl).2.2
      ⟨⟨0, 1, 0⟩, ChMatrix33.identity, ⟨1, 0, 0⟩, ⟨0, 0, 3⟩⟩ rfl).trans (by
    simp only [Option.some.injEq]
    ext
    all_goals
      simp [sampleStore, sampleBody, ChBody.GetPos, ChVector.Cross, ChMatrix33.mulVec,
        ChMatrix33.identity]
    norm_num),
   ((GetSprocketResistiveTorque_sum sampleStore torqueManager).2 2 rfl).2.1 rfl⟩

end ChTrackContactManager

namespace ChTrackContactManager

/-! ## Block structure of OnReportContact -/

/-- A hull / sprocket / idler block followed by the rest of the callback. -/
theorem plainBlock_bind {β γ : Type} (flag : Bool) (part : Option Nat) (c : ReportedContact)
    (l : List ContactInfo) (mk : List ContactInfo → β) (K : β → Option γ) :
    (if flag = true then part >>= fun b => (pure (mk (pushMatching b c l)) >>= K)
      else (pure (mk l) >>= K)) =
      (plainBlock flag part c l).bind fun l' => K (mk l') := by
  unfold plainBlock
  cases flag <;> cases part <;> simp

/-- A shoe block followed by the rest of the callback. -/
theorem shoeBlock_bind {β γ : Type} (flag : Bool) (shoe sprocket : Option Nat)
    (c : ReportedContact) (l : List ContactInfo) (mk : List ContactInfo → β)
    (K : β → Option γ) :
    (if flag = true then pushShoe shoe sprocket c l >>= fun l' => (pure (mk l') >>= K)
      else (pure (mk l) >>= K)) =
      (shoeBlock flag shoe sprocket c l).bind fun l' => K (mk l') := by
  unfold shoeBlock
  cases flag <;> cases pushShoe shoe sprocket c l <;> simp

/-- For a resolved contact `OnReportContact` is the sequence of its seven
blocks, each acting on its own list. -/
theorem OnReportContact_resolved (m : ChTrackContactManager) (c : ReportedContact)
    (hr : c.resolved) :
    OnReportContact m c =
      (plainBlock (m.IsFlagSet TrackedCollisionFlag.CHASSIS) m.m_chassis c
        m.m_chassis_contacts).bind fun l1 =>
      (plainBlock (m.IsFlagSet TrackedCollisionFlag.SPROCKET_LEFT) m.m_sprocket_L c
        m.m_sprocket_L_contacts).bind fun l2 =>
      (plainBlock (m.IsFlagSet TrackedCollisionFlag.SPROCKET_RIGHT) m.m_sprocket_R c
        m.m_sprocket_R_contacts).bind fun l3 =>
      (shoeBlock (m.IsFlagSet TrackedCollisionFlag.SHOES_LEFT) m.m_shoe_L m.m_sprocket_L c
        m.m_shoe_L_contacts).bind fun l4 =>
      (shoeBlock (m.IsFlagSet TrackedCollisionFlag.SHOES_RIGHT) m.m_shoe_R m.m_sprocket_R c
        m.m_shoe_R_contacts).bind fun l5 =>
      (plainBlock (m.IsFlagSet TrackedCollisionFlag.IDLER_LEFT) m.m_idler_L c
        m.m_idler_L_contacts).bind fun l6 =>
      (plainBlock (m.IsFlagSet TrackedCollisionFlag.IDLER_RIGHT) m.m_idler_R c
        m.m_idler_R_contacts).bind fun l7 =>
      some ({ m with
        m_chassis_contacts := l1
        m_sprocket_L_contacts := l2
        m_sprocket_R_contacts := l3
        m_shoe_L_contacts := l4
        m_shoe_R_contacts := l5
        m_idler_L_contacts := l6
        m_idler_R_contacts := l7 }, true) := by
  have hn := (resolved_iff c).1 hr
  unfold OnReportContact
  rw [if_neg hn]
  refine (plainBlock_bind _ _ c _ (fun l => { m with m_chassis_contacts := l }) _).trans ?_
  congr 1
  funext l1
  refine (plainBlock_bind _ _ c _
    (fun l => { m with m_chassis_contacts := l1, m_sprocket_L_contacts := l }) _).trans ?_
  congr 1
  funext l2
  refine (plainBlock_bind _ _ c _
    (fun l => { m with
      m_chassis_contacts := l1, m_sprocket_L_contacts := l2, m_sprocket_R_contacts := l })
    _).trans ?_
  congr 1
  funext l3
  refine (shoeBlock_bind _ _ _ c _
    (fun l => { m with
      m_chassis_contacts := l1, m_sprocket_L_contacts := l2, m_sprocket_R_contacts := l3,
      m_shoe_L_contacts := l })
    _).trans ?_
  congr 1
  funext l4
  refine (shoeBlock_bind _ _ _ c _
    (fun l => { m with
      m_chassis_contacts := l1, m_sprocket_L_contacts := l2, m_sprocket_R_contacts := l3,
      m_shoe_L_contacts := l4, m_shoe_R_contacts := l })
    _).trans ?_
  congr 1
  funext l5
  refine (plainBlock_bind _ _ c _
    (fun l => { m with
      m_chassis_contacts := l1, m_sprocket_L_contacts := l2, m_sprocket_R_contacts := l3,
      m_shoe_L_contacts := l4, m_shoe_R_contacts := l5, m_idler_L_contacts := l })
    _).trans ?_
  congr 1
  funext l6
  refine (plainBlock_bind _ _ c _
    (fun l => { m with
      m_chassis_contacts := l1, m_sprocket_L_contacts := l2, m_sprocket_R_contacts := l3,
      m_shoe_L_contacts := l4, m_shoe_R_contacts := l5, m_idler_L_contacts := l6,
      m_idler_R_contacts := l })
    _).trans ?_
  rfl

/-- A contact that is not resolved leaves the manager as it is. -/
theorem OnReportContact_not_resolved (m : ChTrackContactManager) (c : ReportedContact)
    (hr : ¬ c.resolved) : OnReportContact m c = some (m, true) := by
  have hn : 0 < c.distance ∨ c.react_forces.IsNull = true := by
    by_contra h
    exact hr ((resolved_iff c).2 h)
  simp [OnReportContact, hn]

/-- A shoe block whose flag is set fails on an unbound shoe handle. -/
theorem shoeBlock_unbound (sprocket : Option Nat) (c : ReportedContact)
    (l : List ContactInfo) : shoeBlock true none sprocket c l = none := by
  simp [shoeBlock, pushShoe, shoeCond]

/-- With the left shoe flag set and the left shoe handle unbound,
`OnReportContact` dereferences the null handle for every resolved contact,
whatever the other handles and flags. -/
theorem OnReportContact_unbound_shoe_L (m : ChTrackContactManager) (c : ReportedContact)
    (hr : c.resolved) (hf : m.IsFlagSet TrackedCollisionFlag.SHOES_LEFT = true)
    (hs : m.m_shoe_L = none) : OnReportContact m c = none := by
  rw [OnReportContact_resolved m c hr, hf, hs]
  simp only [shoeBlock_unbound, Option.none_bind]
  cases plainBlock (m.IsFlagSet TrackedCollisionFlag.CHASSIS) m.m_chassis c
      m.m_chassis_contacts <;>
    cases plainBlock (m.IsFlagSet TrackedCollisionFlag.SPROCKET_LEFT) m.m_sprocket_L c
      m.m_sprocket_L_contacts <;>
    cases plainBlock (m.IsFlagSet TrackedCollisionFlag.SPROCKET_RIGHT) m.m_sprocket_R c
      m.m_sprocket_R_contacts <;> rfl

/-- With the right shoe flag set and the right shoe handle unbound,
`OnReportContact` dereferences the null handle for every resolved contact,
whatever the other handles and flags. -/
theorem OnReportContact_unbound_shoe_R (m : ChTrackContactManager) (c : ReportedContact)
    (hr : c.resolved) (hf : m.IsFlagSet TrackedCollisionFlag.SHOES_RIGHT = true)
    (hs : m.m_shoe_R = none) : OnReportContact m c = none := by
  rw [OnReportContact_resolved m c hr, hf, hs]
  simp only [shoeBlock_unbound, Option.none_bind]
  cases plainBlock (m.IsFlagSet TrackedCollisionFlag.CHASSIS) m.m_chassis c
      m.m_chassis_contacts <;>
    cases plainBlock (m.IsFlagSet TrackedCollisionFlag.SPROCKET_LEFT) m.m_sprocket_L c
      m.m_sprocket_L_contacts <;>
    cases plainBlock (m.IsFlagSet TrackedCollisionFlag.SPROCKET_RIGHT) m.m_sprocket_R c
      m.m_sprocket_R_contacts <;>
    cases shoeBlock (m.IsFlagSet TrackedCollisionFlag.SHOES_LEFT) m.m_shoe_L m.m_sprocket_L c
      m.m_shoe_L_contacts <;> rfl

/-- C11 (failing input): a fresh manager with the left shoe flag set, on a
vehicle whose left track assembly has no shoe (index 0 is not below the shoe
count 0) and that holds one resolved contact: the first `Process` call leaves
the left shoe handle unbound and then dereferences it in `OnReportContact`;
neither call completes. -/
theorem unbound_shoe_is_dereferenced :
    (bindParts { ChTrackContactManager.new with m_flags := TrackedCollisionFlag.SHOES_LEFT }
        (shoelessVehicle [])).m_shoe_L = none ∧
    OnReportContact
        (bindParts { ChTrackContactManager.new with m_flags := TrackedCollisionFlag.SHOES_LEFT }
          (shoelessVehicle []))
        (sampleContact (ChContactable.body 0) (ChContactable.body 9)) = none ∧
    Process { ChTrackContactManager.new with m_flags := TrackedCollisionFlag.SHOES_LEFT }
        (shoelessVehicle [sampleContact (ChContactable.body 0) (ChContactable.body 9)]) =
      none := by
  refine ⟨by decide, by decide, by decide⟩

end ChTrackContactManager

namespace ChTrackCollisionManager

/-- C12: `OnNarrowphase` passes the candidate through (result `true`, state and
both caches unchanged) whenever a participant is not a rigid body, or neither
body is a shoe, or the partner of a shoe is neither an idler nor a wheel, or
the partner is an idler / wheel whose interception toggle is disabled; with
both toggles disabled it does so for every candidate. -/
theorem OnNarrowphase_fail_open (bodies : BodyStore) (m : ChTrackCollisionManager)
    (ci : ChCollisionInfo) :
    (ci.modelA.asBody = none ∨ ci.modelB.asBody = none →
      OnNarrowphase bodies m ci = (m, true)) ∧
    (∀ a b : Nat, ci.modelA = ChContactable.body a → ci.modelB = ChContactable.body b →
      ((bodies a).identifier ≠ BodyID.SHOE_BODY ∧ (bodies b).identifier ≠ BodyID.SHOE_BODY →
        OnNarrowphase bodies m ci = (m, true)) ∧
      ((bodies b).identifier = BodyID.SHOE_BODY ∧ (bodies a).identifier ≠ BodyID.IDLER_BODY ∧
          (bodies a).identifier ≠ BodyID.WHEEL_BODY →
        OnNarrowphase bodies m ci = (m, true)) ∧
      ((bodies a).identifier = BodyID.SHOE_BODY ∧ (bodies b).identifier ≠ BodyID.IDLER_BODY ∧
          (bodies b).identifier ≠ BodyID.WHEEL_BODY →
        OnNarrowphase bodies m ci = (m, true)) ∧
      ((bodies b).identifier = BodyID.SHOE_BODY ∧ (bodies a).identifier = BodyID.IDLER_BODY ∧
          m.m_idler_shoe = false →
        OnNarrowphase bodies m ci = (m, true)) ∧
      ((bodies b).identifier = BodyID.SHOE_BODY ∧ (bodies a).identifier = BodyID.WHEEL_BODY ∧
          m.m_wheel_shoe = false →
        OnNarrowphase bodies m ci = (m, true)) ∧
      ((bodies a).identifier = BodyID.SHOE_BODY ∧ (bodies b).identifier = BodyID.IDLER_BODY ∧
          m.m_idler_shoe = false →
        OnNarrowphase bodies m ci = (m, true)) ∧
      ((bodies a).identifier = BodyID.SHOE_BODY ∧ (bodies b).identifier = BodyID.WHEEL_BODY ∧
          m.m_wheel_shoe = false →
        OnNarrowphase bodies m ci = (m, true))) ∧
    (m.m_idler_shoe = false ∧ m.m_wheel_shoe = false →
      OnNarrowphase bodies m ci = (m, true)) := by
  refine ⟨?_, ?_, ?_⟩
  · intro h0
    rcases OnNarrowphase_cases bodies m ci with h | ⟨a', b', hA', hB', _, _, _, _⟩ |
      ⟨a', b', hA', hB', _, _, _, _⟩ | ⟨a', b', hA', hB', _, _, _, _⟩ |
      ⟨a', b', hA', hB', _, _, _, _⟩
    · exact h
    all_goals
      exfalso
      simp [hA', hB', ChContactable.asBody] at h0
  · intro a b hA hB
    refine ⟨?_, ?_, ?_, ?_, ?_, ?_, ?_⟩
    all_goals
      intro hyp
      rcases OnNarrowphase_cases bodies m ci with h | ⟨a', b', hA', hB', ha', hb', ht, _⟩ |
        ⟨a', b', hA', hB', ha', hb', ht, _⟩ | ⟨a', b', hA', hB', ha', hb', ht, _⟩ |
        ⟨a', b', hA', hB', ha', hb', ht, _⟩
      · exact h
      all_goals
        exfalso
        rw [hA] at hA'
        rw [hB] at hB'
        cases hA'
        cases hB'
        simp_all
  · intro hyp
    rcases OnNarrowphase_cases bodies m ci with h | ⟨_, _, _, _, _, _, ht, _⟩ |
      ⟨_, _, _, _, _, _, ht, _⟩ | ⟨_, _, _, _, _, _, ht, _⟩ | ⟨_, _, _, _, _, _, ht, _⟩
    · exact h
    all_goals
      exfalso
      simp_all

/-- C12 (witness): a shoe (body 5) against a sprocket (body 1), against
another shoe (body 6), against a non-body contactable, and against an idler
(body 3) while the idler toggle is disabled, are all passed through. -/
theorem OnNarrowphase_fail_open_witness :
    OnNarrowphase sampleStore ChTrackCollisionManager.new
        (sampleCollision (ChContactable.body 1) (ChContactable.body 5) 0) =
      (ChTrackCollisionManager.new, true) ∧
    OnNarrowphase sampleStore ChTrackCollisionManager.new
        (sampleCollision (ChContactable.body 5) (ChContactable.body 6) 0) =
      (ChTrackCollisionManager.new, true) ∧
    OnNarrowphase sampleStore ChTrackCollisionManager.new
        (sampleCollision (ChContactable.other 7) (ChContactable.body 5) 0) =
      (ChTrackCollisionManager.new, true) ∧
    OnNarrowphase sampleStore { ChTrackCollisionManager.new with m_idler_shoe := false }
        (sampleCollision (ChContactable.body 3) (ChContactable.body 5) 0) =
      ({ ChTrackCollisionManager.new with m_idler_shoe := false }, true) :=
  ⟨((OnNarrowphase_fail_open sampleStore ChTrackCollisionManager.new
      (sampleCollision (ChContactable.body 1) (ChContactable.body 5) 0)).2.1 1 5 rfl rfl).2.1
      ⟨by decide, by decide, by decide⟩,
   ((OnNarrowphase_fail_open sampleStore ChTrackCollisionManager.new
      (sampleCollision (ChContactable.body 5) (ChContactable.body 6) 0)).2.1 5 6 rfl rfl).2.1
      ⟨by decide, by decide, by decide⟩,
   (OnNarrowphase_fail_open sampleStore ChTrackCollisionManager.new
      (sampleCollision (ChContactable.other 7) (ChContactable.body 5) 0)).1 (Or.inl rfl),
   ((OnNarrowphase_fail_open sampleStore { ChTrackCollisionManager.new with m_idler_shoe := false }
      (sampleCollision (ChContactable.body 3) (ChContactable.body 5) 0)).2.1 3 5 rfl
      rfl).2.2.2.1 ⟨by decide, by decide, rfl⟩⟩

/-- C16: after `Reset` both caches are empty and the two interception toggles
are as before, whatever the prior state. -/
theorem Reset_empties_caches (m : ChTrackCollisionManager) :
    (Reset m).m_collisions_idler = [] ∧ (Reset m).m_collisions_wheel = [] ∧
    (Reset m).m_idler_shoe = m.m_idler_shoe ∧ (Reset m).m_wheel_shoe = m.m_wheel_shoe :=
  ⟨rfl, rfl, rfl, rfl⟩

/-- C20: `OnNarrowphase` returns `false` exactly when it appended one record
to exactly one of the two caches, the other cache being unchanged; when it
returns `true` the whole state, hence both caches, is unchanged; the toggles
never change. -/
theorem OnNarrowphase_suppresses_iff_cached (bodies : BodyStore)
    (m : ChTrackCollisionManager) (ci : ChCollisionInfo) :
    ((OnNarrowphase bodies m ci).2 = false ↔
      ∃ r : ChCollisionInfo,
        ((OnNarrowphase bodies m ci).1.m_collisions_idler = m.m_collisions_idler ++ [r] ∧
          (OnNarrowphase bodies m ci).1.m_collisions_wheel = m.m_collisions_wheel) ∨
        ((OnNarrowphase bodies m ci).1.m_collisions_wheel = m.m_collisions_wheel ++ [r] ∧
          (OnNarrowphase bodies m ci).1.m_collisions_idler = m.m_collisions_idler)) ∧
    ((OnNarrowphase bodies m ci).2 = true → (OnNarrowphase bodies m ci).1 = m) ∧
    (OnNarrowphase bodies m ci).1.m_idler_shoe = m.m_idler_shoe ∧
    (OnNarrowphase bodies m ci).1.m_wheel_shoe = m.m_wheel_shoe := by
  rcases OnNarrowphase_cases bodies m ci with h | ⟨_, _, _, _, _, _, _, h⟩ |
    ⟨_, _, _, _, _, _, _, h⟩ | ⟨_, _, _, _, _, _, _, h⟩ | ⟨_, _, _, _, _, _, _, h⟩ <;>
    rw [h]
  · simp
  · exact ⟨⟨fun _ => ⟨ci, Or.inl ⟨rfl, rfl⟩⟩, fun _ => rfl⟩, by simp, rfl, rfl⟩
  · exact ⟨⟨fun _ => ⟨ci, Or.inr ⟨rfl, rfl⟩⟩, fun _ => rfl⟩, by simp, rfl, rfl⟩
  · exact ⟨⟨fun _ => ⟨ci.SwapModels, Or.inl ⟨rfl, rfl⟩⟩, fun _ => rfl⟩, by simp, rfl, rfl⟩
  · exact ⟨⟨fun _ => ⟨ci.SwapModels, Or.inr ⟨rfl, rfl⟩⟩, fun _ => rfl⟩, by simp, rfl, rfl⟩

/-- C20 (witness): a sprocket against a shoe is passed through with the state
unchanged. -/
theorem OnNarrowphase_suppresses_iff_cached_witness :
    (OnNarrowphase sampleStore ChTrackCollisionManager.new
      (sampleCollision (ChContactable.body 1) (ChContactable.body 5) 0)).1 =
      ChTrackCollisionManager.new :=
  (OnNarrowphase_suppresses_iff_cached sampleStore ChTrackCollisionManager.new
    (sampleCollision (ChContactable.body 1) (ChContactable.body 5) 0)).2.1 (by
      simp [OnNarrowphase, shoeIsA, shoeIsB, sampleCollision, sampleStore,
        ChContactable.asBody, ChBody.GetIdentifier, ChBody.TransformDirectionParentToLocal,
        sampleBody, nrm_threshold, ChTrackCollisionManager.new]
      norm_num)

end ChTrackCollisionManager

namespace ChTrackContactManager

/-! ## InContact -/

/-- C15: for each of the seven single-part flags `InContact(part)` is `true`
exactly when that part's contact list is not empty, and for every other
argument value it is `false`; `InContact` only reads the manager (it returns
the answer and no new state). -/
theorem InContact_iff_nonempty (m : ChTrackContactManager) :
    (InContact m TrackedCollisionFlag.CHASSIS = true ↔ m.m_chassis_contacts ≠ []) ∧
    (InContact m TrackedCollisionFlag.SPROCKET_LEFT = true ↔ m.m_sprocket_L_contacts ≠ []) ∧
    (InContact m TrackedCollisionFlag.SPROCKET_RIGHT = true ↔ m.m_sprocket_R_contacts ≠ []) ∧
    (InContact m TrackedCollisionFlag.IDLER_LEFT = true ↔ m.m_idler_L_contacts ≠ []) ∧
    (InContact m TrackedCollisionFlag.IDLER_RIGHT = true ↔ m.m_idler_R_contacts ≠ []) ∧
    (InContact m TrackedCollisionFlag.SHOES_LEFT = true ↔ m.m_shoe_L_contacts ≠ []) ∧
    (InContact m TrackedCollisionFlag.SHOES_RIGHT = true ↔ m.m_shoe_R_contacts ≠ []) ∧
    (∀ part : Nat,
      part ∉ [TrackedCollisionFlag.CHASSIS, TrackedCollisionFlag.SPROCKET_LEFT,
        TrackedCollisionFlag.SPROCKET_RIGHT, TrackedCollisionFlag.IDLER_LEFT,
        TrackedCollisionFlag.IDLER_RIGHT, TrackedCollisionFlag.SHOES_LEFT,
        TrackedCollisionFlag.SHOES_RIGHT] →
      InContact m part = false) := by
  refine ⟨?_, ?_, ?_, ?_, ?_, ?_, ?_, ?_⟩
  · simp [InContact, TrackedCollisionFlag.CHASSIS]
  · simp [InContact, TrackedCollisionFlag.CHASSIS, TrackedCollisionFlag.SPROCKET_LEFT]
  · simp [InContact, TrackedCollisionFlag.CHASSIS, TrackedCollisionFlag.SPROCKET_LEFT,
      TrackedCollisionFlag.SPROCKET_RIGHT]
  · simp [InContact, TrackedCollisionFlag.CHASSIS, TrackedCollisionFlag.SPROCKET_LEFT,
      TrackedCollisionFlag.SPROCKET_RIGHT, TrackedCollisionFlag.IDLER_LEFT]
  · simp [InContact, TrackedCollisionFlag.CHASSIS, TrackedCollisionFlag.SPROCKET_LEFT,
      TrackedCollisionFlag.SPROCKET_RIGHT, TrackedCollisionFlag.IDLER_LEFT,
      TrackedCollisionFlag.IDLER_RIGHT]
  · simp [InContact, TrackedCollisionFlag.CHASSIS, TrackedCollisionFlag.SPROCKET_LEFT,
      TrackedCollisionFlag.SPROCKET_RIGHT, TrackedCollisionFlag.IDLER_LEFT,
      TrackedCollisionFlag.IDLER_RIGHT, TrackedCollisionFlag.SHOES_LEFT]
  · simp [InContact, TrackedCollisionFlag.CHASSIS, TrackedCollisionFlag.SPROCKET_LEFT,
      TrackedCollisionFlag.SPROCKET_RIGHT, TrackedCollisionFlag.IDLER_LEFT,
      TrackedCollisionFlag.IDLER_RIGHT, TrackedCollisionFlag.SHOES_LEFT,
      TrackedCollisionFlag.SHOES_RIGHT]
  · intro part hp
    simp only [List.mem_cons, List.mem_singleton, List.not_mem_nil, or_false, not_or] at hp
    obtain ⟨h1, h2, h3, h4, h5, h6, h7⟩ := hp
    simp [InContact, h1, h2, h3, h4, h5, h6, h7]

/-- C15 (witness): on the manager whose left sprocket list holds one record,
`InContact` answers `true` for the left sprocket, `false` for the hull, and
`false` for the road-wheel mask, which names no monitored part. -/
theorem InContact_iff_nonempty_witness :
    InContact torqueManager TrackedCollisionFlag.SPROCKET_LEFT = true ∧
    InContact torqueManager TrackedCollisionFlag.CHASSIS = false ∧
    InContact torqueManager TrackedCollisionFlag.WHEELS_LEFT = false :=
  ⟨(InContact_iff_nonempty torqueManager).2.1.2 (by decide),
   by
    have h := (InContact_iff_nonempty torqueManager).1
    cases hc : InContact torqueManager TrackedCollisionFlag.CHASSIS
    · rfl
    · exact absurd rfl (h.1 hc),
   (InContact_iff_nonempty torqueManager).2.2.2.2.2.2.2 TrackedCollisionFlag.WHEELS_LEFT
     (by decide)⟩

end ChTrackContactManager

namespace ChTrackContactManager

/-- A hull / sprocket / idler block that completes either leaves its list or
has its handle bound. -/
theorem plainBlock_some {flag : Bool} {part : Option Nat} {c : ReportedContact}
    {l l' : List ContactInfo} (h : plainBlock flag part c l = some l') :
    l' = l ∨ part ≠ none := by
  unfold plainBlock at h
  cases flag <;> cases part <;> simp_all

/-- A shoe block that completes either leaves its list or has its shoe handle
bound. -/
theorem shoeBlock_some {flag : Bool} {shoe sprocket : Option Nat} {c : ReportedContact}
    {l l' : List ContactInfo} (h : shoeBlock flag shoe sprocket c l = some l') :
    l' = l ∨ shoe ≠ none := by
  unfold shoeBlock at h
  cases flag <;> cases shoe <;> simp_all [pushShoe, shoeCond]

/-- What a completed `OnReportContact` call does: it answers "continue",
changes nothing but the seven lists, and changes a list only of a part whose
handle is bound. -/
theorem OnReportContact_some {m : ChTrackContactManager} {c : ReportedContact}
    {r : ChTrackContactManager × Bool} (h : OnReportContact m c = some r) :
    r.2 = true ∧ clearLists r.1 = clearLists m ∧
    (r.1.m_chassis_contacts = m.m_chassis_contacts ∨ m.m_chassis ≠ none) ∧
    (r.1.m_sprocket_L_contacts = m.m_sprocket_L_contacts ∨ m.m_sprocket_L ≠ none) ∧
    (r.1.m_sprocket_R_contacts = m.m_sprocket_R_contacts ∨ m.m_sprocket_R ≠ none) ∧
    (r.1.m_idler_L_contacts = m.m_idler_L_contacts ∨ m.m_idler_L ≠ none) ∧
    (r.1.m_idler_R_contacts = m.m_idler_R_contacts ∨ m.m_idler_R ≠ none) ∧
    (r.1.m_shoe_L_contacts = m.m_shoe_L_contacts ∨ m.m_shoe_L ≠ none) ∧
    (r.1.m_shoe_R_contacts = m.m_shoe_R_contacts ∨ m.m_shoe_R ≠ none) := by
  by_cases hr : c.resolved
  · rw [OnReportContact_resolved m c hr] at h
    simp only [Option.bind_eq_some] at h
    obtain ⟨l1, h1, l2, h2, l3, h3, l4, h4, l5, h5, l6, h6, l7, h7, h⟩ := h
    cases h
    exact ⟨rfl, rfl, plainBlock_some h1, plainBlock_some h2, plainBlock_some h3,
      plainBlock_some h6, plainBlock_some h7, shoeBlock_some h4, shoeBlock_some h5⟩
  · rw [OnReportContact_not_resolved m c hr] at h
    cases h
    exact ⟨rfl, rfl, Or.inl rfl, Or.inl rfl, Or.inl rfl, Or.inl rfl, Or.inl rfl, Or.inl rfl,
      Or.inl rfl⟩

/-- A completed `OnReportContact` call keeps "a part with records is bound". -/
theorem OnReportContact_keeps_bound {m : ChTrackContactManager} {c : ReportedContact}
    {r : ChTrackContactManager × Bool} (h : OnReportContact m c = some r)
    (hb : BoundIfNonempty m) : BoundIfNonempty r.1 := by
  obtain ⟨_, hfr, k1, k2, k3, k4, k5, k6, k7⟩ := OnReportContact_some h
  obtain ⟨b1, b2, b3, b4, b5, b6, b7⟩ := hb
  have e1 : r.1.m_chassis = m.m_chassis := congrArg (fun x => x.m_chassis) hfr
  have e2 : r.1.m_sprocket_L = m.m_sprocket_L := congrArg (fun x => x.m_sprocket_L) hfr
  have e3 : r.1.m_sprocket_R = m.m_sprocket_R := congrArg (fun x => x.m_sprocket_R) hfr
  have e4 : r.1.m_idler_L = m.m_idler_L := congrArg (fun x => x.m_idler_L) hfr
  have e5 : r.1.m_idler_R = m.m_idler_R := congrArg (fun x => x.m_idler_R) hfr
  have e6 : r.1.m_shoe_L = m.m_shoe_L := congrArg (fun x => x.m_shoe_L) hfr
  have e7 : r.1.m_shoe_R = m.m_shoe_R := congrArg (fun x => x.m_shoe_R) hfr
  unfold BoundIfNonempty
  rw [e1, e2, e3, e4, e5, e6, e7]
  refine ⟨?_, ?_, ?_, ?_, ?_, ?_, ?_⟩
  · rcases k1 with k | k
    · rw [k]; exact b1
    · exact fun _ => k
  · rcases k2 with k | k
    · rw [k]; exact b2
    · exact fun _ => k
  · rcases k3 with k | k
    · rw [k]; exact b3
    · exact fun _ => k
  · rcases k4 with k | k
    · rw [k]; exact b4
    · exact fun _ => k
  · rcases k5 with k | k
    · rw [k]; exact b5
    · exact fun _ => k
  · rcases k6 with k | k
    · rw [k]; exact b6
    · exact fun _ => k
  · rcases k7 with k | k
    · rw [k]; exact b7
    · exact fun _ => k

/-- The traversal is the fold of `OnReportContact` over the contacts, and it
hands every contact to the callback. -/
theorem ReportAllContacts_eq_foldReport (cs : List ReportedContact) :
    ∀ m : ChTrackContactManager,
      ReportAllContacts cs m = (foldReport cs m).map fun m' => (m', cs) := by
  induction cs with
  | nil => intro m; rfl
  | cons c cs ih =>
    intro m
    rw [ReportAllContacts, foldReport]
    cases h : OnReportContact m c with
    | none => rfl
    | some r =>
      have ht := (OnReportContact_some h).1
      simp only [Option.bind_eq_bind, Option.some_bind, ht, if_true, ih]
      cases foldReport cs r.1 <;> rfl

/-- A completed fold of `OnReportContact` changes nothing but the seven lists
and keeps "a part with records is bound". -/
theorem foldReport_some (cs : List ReportedContact) :
    ∀ m m' : ChTrackContactManager, foldReport cs m = some m' →
      clearLists m' = clearLists m ∧ (BoundIfNonempty m → BoundIfNonempty m') := by
  induction cs with
  | nil =>
    intro m m' h
    cases h
    exact ⟨rfl, id⟩
  | cons c cs ih =>
    intro m m' h
    rw [foldReport] at h
    cases h1 : OnReportContact m c with
    | none => rw [h1] at h; cases h
    | some r =>
      rw [h1] at h
      obtain ⟨i1, i2⟩ := ih r.1 m' h
      exact ⟨i1.trans (OnReportContact_some h1).2.1,
        fun hb => i2 (OnReportContact_keeps_bound h1 hb)⟩

/-- The log loop of a part whose handle is bound whenever its list holds a
record writes the local points of the list. -/
theorem localPoints_eq (bodies : BodyStore) (part : Option Nat) (l : List ContactInfo)
    (h : l ≠ [] → part ≠ none) : localPoints bodies part l = some (pointCells bodies part l) := by
  cases part with
  | some b => exact localPoints_bound bodies b l
  | none =>
    have hl : l = [] := by
      by_contra hne
      exact h hne rfl
    subst hl
    rfl

/-- The guarded log loop writes the local points of the list (nothing for an
unbound handle). -/
theorem localPointsGuarded_eq (bodies : BodyStore) (part : Option Nat)
    (l : List ContactInfo) :
    localPointsGuarded bodies part l = some (pointCells bodies part l) := by
  cases part with
  | some b => exact localPoints_bound bodies b l
  | none => rfl

/-- A part whose handle is bound whenever its list holds a record contributes
three cells per record. -/
theorem pointCells_length (bodies : BodyStore) (part : Option Nat) (l : List ContactInfo)
    (h : l ≠ [] → part ≠ none) : (pointCells bodies part l).length = 3 * l.length := by
  cases part with
  | some b =>
    simp only [pointCells]
    induction l with
    | nil => rfl
    | cons c cs ih =>
      rw [List.flatMap_cons, List.length_append, ih (fun _ => by simp)]
      simp only [CsvCell.ofVector, List.length_cons, List.length_nil]
      ring
  | none =>
    have hl : l = [] := by
      by_contra hne
      exact h hne rfl
    subst hl
    rfl

/-- When every part with records is bound, the collection block appends the
snapshot row if logging is enabled and some list holds a record, and does
nothing otherwise. -/
theorem collect_eq (m : ChTrackContactManager) (v : ChTrackedVehicle)
    (hb : BoundIfNonempty m) :
    collect m v =
      some (if m.m_collect = true ∧ totalRecords m ≠ 0 then
        { m with m_csv := m.m_csv ++ [snapshotRow m v] } else m) := by
  obtain ⟨b1, b2, b3, b4, b5, _, _⟩ := hb
  unfold collect totalRecords
  by_cases hc : m.m_collect = true
  · rw [if_pos hc]
    dsimp only
    by_cases hn : m.m_chassis_contacts.length + m.m_sprocket_L_contacts.length +
        m.m_sprocket_R_contacts.length + m.m_idler_L_contacts.length +
        m.m_idler_R_contacts.length + m.m_shoe_L_contacts.length +
        m.m_shoe_R_contacts.length ≠ 0
    · rw [if_pos hn, if_pos ⟨hc, hn⟩]
      simp only [localPoints_eq _ _ _ b1, localPoints_eq _ _ _ b2, localPoints_eq _ _ _ b3,
        localPoints_eq _ _ _ b4, localPoints_eq _ _ _ b5, localPointsGuarded_eq,
        Option.bind_eq_bind, Option.some_bind, Option.pure_def, snapshotRow]
      simp
    · rw [if_neg hn, if_neg (fun h => hn h.2)]
      rfl
  · rw [if_neg hc, if_neg (fun h => hc h.1)]
    rfl

/-- The cleared state has no record, so every part with records is bound. -/
theorem clearLists_bound (m : ChTrackContactManager) : BoundIfNonempty (clearLists m) := by
  unfold BoundIfNonempty clearLists
  simp

/-- With non-empty flags `Process` is: bind the handles, clear the lists, fold
`OnReportContact` over the engine contacts, then run the collection block. -/
theorem Process_eq (m : ChTrackContactManager) (v : ChTrackedVehicle) (hf : m.m_flags ≠ 0) :
    Process m v =
      (foldReport v.contacts (clearLists (bindParts m v))).map fun m3 =>
        ⟨if m3.m_collect = true ∧ totalRecords m3 ≠ 0 then
            { m3 with m_csv := m3.m_csv ++ [snapshotRow m3 v] } else m3,
          v.contacts⟩ := by
  have hf1 : ¬ (bindParts m v).m_flags = 0 := by
    rw [(bindParts_frame m v).1]
    exact hf
  unfold Process
  simp only [hf1, if_false, ReportAllContacts_eq_foldReport]
  cases h : foldReport v.contacts (clearLists (bindParts m v)) with
  | none => rfl
  | some m3 =>
    have hb := (foldReport_some _ _ _ h).2 (clearLists_bound _)
    simp [collect_eq m3 v hb]

/-- Binding the handles and clearing the lists commute. -/
theorem clearLists_bindParts (m : ChTrackContactManager) (v : ChTrackedVehicle) :
    clearLists (bindParts m v) = bindParts (clearLists m) v := by
  unfold bindParts clearLists
  by_cases hi : m.m_initialized = true
  · simp [hi]
  · by_cases hs : (v.GetTrackAssembly VehicleSide.LEFT).shoes.length > m.m_shoe_index_L ∧
        (v.GetTrackAssembly VehicleSide.RIGHT).shoes.length > m.m_shoe_index_R
    · simp [hi, hs]
    · simp [hi, hs]

/-- C13: with non-empty flags the outcome of `Process` does not depend on what
the seven lists held before: two managers that differ only in their lists give
the same outcome (same lists, same log, same failure), and the seven lists
after the call are those obtained by folding `OnReportContact` over the engine
contacts from seven empty lists. -/
theorem Process_ignores_prior_lists (m1 m2 : ChTrackContactManager) (v : ChTrackedVehicle)
    (hf : m1.m_flags ≠ 0) (hsame : clearLists m1 = clearLists m2) :
    Process m1 v = Process m2 v ∧
    (Process m1 v).map (fun r => partLists r.manager) =
      (foldReport v.contacts (clearLists (bindParts m1 v))).map partLists ∧
    partLists (clearLists (bindParts m1 v)) = [[], [], [], [], [], [], []] := by
  have hf2 : m2.m_flags ≠ 0 := by
    have h : m1.m_flags = m2.m_flags := congrArg (fun x => x.m_flags) hsame
    rw [← h]
    exact hf
  have hc : clearLists (bindParts m1 v) = clearLists (bindParts m2 v) := by
    rw [clearLists_bindParts, clearLists_bindParts, hsame]
  refine ⟨?_, ?_, rfl⟩
  · rw [Process_eq m1 v hf, Process_eq m2 v hf2, hc]
  · rw [Process_eq m1 v hf]
    cases foldReport v.contacts (clearLists (bindParts m1 v)) with
    | none => rfl
    | some m3 =>
      simp only [Option.map_some']
      split_ifs <;> rfl

/-- C13 (witness): the manager monitoring the hull whose left sprocket list
holds a stale record and the same manager with that list empty give the same
outcome on a vehicle with a resolved hull contact. -/
theorem Process_ignores_prior_lists_witness :
    Process hullOnlyManager
        (sampleVehicle [sampleContact (ChContactable.body 0) (ChContactable.body 9)]) =
      Process { hullOnlyManager with m_sprocket_L_contacts := [] }
        (sampleVehicle [sampleContact (ChContactable.body 0) (ChContactable.body 9)]) :=
  (Process_ignores_prior_lists hullOnlyManager
    { hullOnlyManager with m_sprocket_L_contacts := [] }
    (sampleVehicle [sampleContact (ChContactable.body 0) (ChContactable.body 9)])
    (by decide) rfl).1

/-- A hull / sprocket / idler block completes when its handle is bound
whenever its flag is set. -/
theorem plainBlock_total (flag : Bool) (part : Option Nat) (c : ReportedContact)
    (l : List ContactInfo) (h : flag = true → part ≠ none) :
    ∃ l', plainBlock flag part c l = some l' := by
  unfold plainBlock
  cases flag <;> cases part <;> simp_all

/-- A shoe block completes when its shoe and sprocket handles are bound
whenever its flag is set. -/
theorem shoeBlock_total (flag : Bool) (shoe sprocket : Option Nat) (c : ReportedContact)
    (l : List ContactInfo) (h : flag = true → shoe ≠ none ∧ sprocket ≠ none) :
    ∃ l', shoeBlock flag shoe sprocket c l = some l' := by
  unfold shoeBlock
  cases flag with
  | false => exact ⟨l, rfl⟩
  | true =>
    obtain ⟨hs, hg⟩ := h rfl
    obtain ⟨s, rfl⟩ := Option.ne_none_iff_exists'.1 hs
    obtain ⟨g, rfl⟩ := Option.ne_none_iff_exists'.1 hg
    simp only [if_true, pushShoe, shoeCond, Option.bind_eq_bind, Option.some_bind,
      Option.pure_def]
    split_ifs <;> exact ⟨_, rfl⟩

/-- When every flagged part is bound `OnReportContact` completes. -/
theorem OnReportContact_total (m : ChTrackContactManager) (c : ReportedContact)
    (hb : FlaggedBound m) : ∃ m', OnReportContact m c = some (m', true) := by
  by_cases hr : c.resolved
  · obtain ⟨b1, b2, b3, b4, b5, b6, b7⟩ := hb
    obtain ⟨l1, h1⟩ := plainBlock_total _ _ c m.m_chassis_contacts b1
    obtain ⟨l2, h2⟩ := plainBlock_total _ _ c m.m_sprocket_L_contacts b2
    obtain ⟨l3, h3⟩ := plainBlock_total _ _ c m.m_sprocket_R_contacts b3
    obtain ⟨l4, h4⟩ := shoeBlock_total _ _ _ c m.m_shoe_L_contacts b6
    obtain ⟨l5, h5⟩ := shoeBlock_total _ _ _ c m.m_shoe_R_contacts b7
    obtain ⟨l6, h6⟩ := plainBlock_total _ _ c m.m_idler_L_contacts b4
    obtain ⟨l7, h7⟩ := plainBlock_total _ _ c m.m_idler_R_contacts b5
    rw [OnReportContact_resolved m c hr, h1, h2, h3, h4, h5, h6, h7]
    exact ⟨_, rfl⟩
  · exact ⟨m, OnReportContact_not_resolved m c hr⟩

/-- "Every flagged part is bound" only depends on the flags and the handles. -/
theorem FlaggedBound_of_same {m m' : ChTrackContactManager}
    (h : clearLists m' = clearLists m) (hb : FlaggedBound m) : FlaggedBound m' := by
  have e0 : m'.m_flags = m.m_flags := congrArg (fun x => x.m_flags) h
  have e1 : m'.m_chassis = m.m_chassis := congrArg (fun x => x.m_chassis) h
  have e2 : m'.m_sprocket_L = m.m_sprocket_L := congrArg (fun x => x.m_sprocket_L) h
  have e3 : m'.m_sprocket_R = m.m_sprocket_R := congrArg (fun x => x.m_sprocket_R) h
  have e4 : m'.m_idler_L = m.m_idler_L := congrArg (fun x => x.m_idler_L) h
  have e5 : m'.m_idler_R = m.m_idler_R := congrArg (fun x => x.m_idler_R) h
  have e6 : m'.m_shoe_L = m.m_shoe_L := congrArg (fun x => x.m_shoe_L) h
  have e7 : m'.m_shoe_R = m.m_shoe_R := congrArg (fun x => x.m_shoe_R) h
  unfold FlaggedBound IsFlagSet at hb ⊢
  rw [e0, e1, e2, e3, e4, e5, e6, e7]
  exact hb

/-- When every flagged part is bound the fold of `OnReportContact` over any
contacts completes. -/
theorem foldReport_total (cs : List ReportedContact) :
    ∀ m : ChTrackContactManager, FlaggedBound m → ∃ m', foldReport cs m = some m' := by
  induction cs with
  | nil => intro m _; exact ⟨m, rfl⟩
  | cons c cs ih =>
    intro m hb
    obtain ⟨m1, h1⟩ := OnReportContact_total m c hb
    obtain ⟨m', h'⟩ := ih m1 (FlaggedBound_of_same (OnReportContact_some h1).2.1 hb)
    exact ⟨m', by rw [foldReport, h1]; exact h'⟩

/-- When every part with records is bound the snapshot row has the time
column, seven size columns and three columns per record. -/
theorem snapshotRow_length (m : ChTrackContactManager) (v : ChTrackedVehicle)
    (hb : BoundIfNonempty m) : (snapshotRow m v).length = 8 + 3 * totalRecords m := by
  obtain ⟨b1, b2, b3, b4, b5, b6, b7⟩ := hb
  simp only [snapshotRow, List.length_append, List.length_cons, List.length_nil,
    pointCells_length _ _ _ b1, pointCells_length _ _ _ b2, pointCells_length _ _ _ b3,
    pointCells_length _ _ _ b4, pointCells_length _ _ _ b5, pointCells_length _ _ _ b6,
    pointCells_length _ _ _ b7, totalRecords]
  ring

/-- Every `Process` call with non-empty flags that completes has handed every
engine contact to the callback, and has appended exactly one row to the log
buffer when logging is enabled and the seven lists hold a record, and none
otherwise; the row is the step time, the seven list sizes in the order hull,
sprocket-L, sprocket-R, idler-L, idler-R, shoe-L, shoe-R, then the local points
of the records of each list in that order, `8 + 3 * total` cells in all. -/
theorem Process_completed_log_row (m : ChTrackContactManager) (v : ChTrackedVehicle)
    (r : ProcessOutcome) (hf : m.m_flags ≠ 0) (h : Process m v = some r) :
    r.reported = v.contacts ∧
    (m.m_collect = true ∧ totalRecords r.manager ≠ 0 →
      r.manager.m_csv = m.m_csv ++ [snapshotRow r.manager v] ∧
      (snapshotRow r.manager v).length = 8 + 3 * totalRecords r.manager) ∧
    (¬ (m.m_collect = true ∧ totalRecords r.manager ≠ 0) → r.manager.m_csv = m.m_csv) := by
  rw [Process_eq m v hf] at h
  cases h3 : foldReport v.contacts (clearLists (bindParts m v)) with
  | none => rw [h3] at h; cases h
  | some m3 =>
    rw [h3] at h
    obtain ⟨hsame, hbound⟩ := foldReport_some _ _ _ h3
    have hbound := hbound (clearLists_bound _)
    have hcol : m3.m_collect = m.m_collect :=
      (congrArg (fun x => x.m_collect) hsame).trans (bindParts_frame m v).2.1
    have hcsv : m3.m_csv = m.m_csv :=
      (congrArg (fun x => x.m_csv) hsame).trans (bindParts_frame m v).2.2.1
    simp only [Option.map_some', Option.some.injEq] at h
    subst h
    by_cases hc : m3.m_collect = true ∧ totalRecords m3 ≠ 0
    · rw [if_pos hc]
      refine ⟨rfl, ?_, ?_⟩
      · intro _
        exact ⟨by rw [← hcsv]; rfl, snapshotRow_length m3 v hbound⟩
      · intro hn
        exact absurd ⟨hcol ▸ hc.1, hc.2⟩ hn
    · rw [if_neg hc]
      refine ⟨rfl, ?_, ?_⟩
      · intro hyp
        exact absurd ⟨hcol.symm ▸ hyp.1, hyp.2⟩ hc
      · intro _
        exact hcsv

/-- With non-empty flags and every flagged part bound after the binding step,
`Process` completes, and the log buffer gains the snapshot row exactly when
logging is enabled and the seven lists hold a record. -/
theorem Process_log_row (m : ChTrackContactManager) (v : ChTrackedVehicle)
    (hf : m.m_flags ≠ 0) (hb : FlaggedBound (bindParts m v)) :
    ∃ m', Process m v = some ⟨m', v.contacts⟩ ∧
      (m.m_collect = true ∧ totalRecords m' ≠ 0 →
        m'.m_csv = m.m_csv ++ [snapshotRow m' v] ∧
        (snapshotRow m' v).length = 8 + 3 * totalRecords m') ∧
      (¬ (m.m_collect = true ∧ totalRecords m' ≠ 0) → m'.m_csv = m.m_csv) := by
  have hb' : FlaggedBound (clearLists (bindParts m v)) :=
    @FlaggedBound_of_same (bindParts m v) (clearLists (bindParts m v)) rfl hb
  obtain ⟨m3, h3⟩ := foldReport_total v.contacts _ hb'
  have hp : ∃ r, Process m v = some r := by
    rw [Process_eq m v hf, h3]
    exact ⟨_, rfl⟩
  obtain ⟨r, hr⟩ := hp
  obtain ⟨h1, h2, h4⟩ := Process_completed_log_row m v r hf hr
  refine ⟨r.manager, ?_, h2, h4⟩
  rw [hr, ← h1]

/-- A fresh manager monitoring the hull with logging enabled, on the sample
vehicle holding one resolved hull contact: one record, one row of 8 + 3 cells
appended to the empty log buffer. -/
theorem Process_log_row_sample :
    ∃ m', Process { ChTrackContactManager.new with
          m_flags := TrackedCollisionFlag.CHASSIS, m_collect := true }
        (sampleVehicle [sampleContact (ChContactable.body 0) (ChContactable.body 9)]) =
        some ⟨m', [sampleContact (ChContactable.body 0) (ChContactable.body 9)]⟩ ∧
      totalRecords m' = 1 ∧
      m'.m_csv = [snapshotRow m'
        (sampleVehicle [sampleContact (ChContactable.body 0) (ChContactable.body 9)])] ∧
      (snapshotRow m'
        (sampleVehicle [sampleContact (ChContactable.body 0) (ChContactable.body 9)])).length =
        8 + 3 * 1 := by
  obtain ⟨m', h1, h2, _⟩ := Process_log_row
    { ChTrackContactManager.new with m_flags := TrackedCollisionFlag.CHASSIS, m_collect := true }
    (sampleVehicle [sampleContact (ChContactable.body 0) (ChContactable.body 9)])
    (by decide) (by decide)
  have e : (Process { ChTrackContactManager.new with
        m_flags := TrackedCollisionFlag.CHASSIS, m_collect := true }
      (sampleVehicle [sampleContact (ChContactable.body 0) (ChContactable.body 9)])).map
      (fun r => totalRecords r.manager) = some 1 := by decide
  rw [h1] at e
  have ht : totalRecords m' = 1 := Option.some.inj e
  obtain ⟨h3, h4⟩ := h2 ⟨rfl, by rw [ht]; decide⟩
  rw [ht] at h4
  exact ⟨m', h1, ht, h3, h4⟩

/-- C14 (failing input): a fresh manager with the hull and left shoe flags set
and logging enabled, on a vehicle whose left track assembly has no shoe and
that holds one resolved contact with the hull as body A. The flags are not
empty, logging is enabled and the contact owes the hull a record, so one row is
due; but `Process` does not complete and appends nothing: the callback
dereferences the unbound left shoe handle. With the left shoe flag clear the
same call does append its one row. -/
theorem log_row_lost_to_unbound_shoe :
    ({ ChTrackContactManager.new with
        m_flags := TrackedCollisionFlag.CHASSIS ||| TrackedCollisionFlag.SHOES_LEFT,
        m_collect := true } : ChTrackContactManager).m_flags ≠ 0 ∧
    recordsOf (shoelessVehicle []).chassis
      [sampleContact (ChContactable.body 0) (ChContactable.body 9)] ≠ [] ∧
    Process { ChTrackContactManager.new with
        m_flags := TrackedCollisionFlag.CHASSIS ||| TrackedCollisionFlag.SHOES_LEFT,
        m_collect := true }
      (shoelessVehicle [sampleContact (ChContactable.body 0) (ChContactable.body 9)]) =
      none ∧
    (Process { ChTrackContactManager.new with
        m_flags := TrackedCollisionFlag.CHASSIS, m_collect := true }
      (shoelessVehicle [sampleContact (ChContactable.body 0) (ChContactable.body 9)])).map
      (fun r => r.manager.m_csv.length) = some 1 := by
  refine ⟨by decide, by decide, by decide, by decide⟩

/-- What `Process` does to the handles: whatever it does afterwards, the
handles it leaves are those of the binding step. -/
theorem Process_handles (m : ChTrackContactManager) (v : ChTrackedVehicle)
    (r : ProcessOutcome) (h : Process m v = some r) :
    handles r.manager = handles (bindParts m v) ∧
    r.manager.m_initialized = (bindParts m v).m_initialized := by
  by_cases hf : m.m_flags = 0
  · have hf1 : (bindParts m v).m_flags = 0 := (bindParts_frame m v).1.trans hf
    unfold Process at h
    simp only [hf1, if_true, Option.some.injEq] at h
    subst h
    exact ⟨rfl, rfl⟩
  · rw [Process_eq m v hf] at h
    cases h3 : foldReport v.contacts (clearLists (bindParts m v)) with
    | none => rw [h3] at h; cases h
    | some m3 =>
      rw [h3] at h
      have hsame := (foldReport_some _ _ _ h3).1
      have hh : handles m3 = handles (bindParts m v) := by
        have e1 : m3.m_chassis = (bindParts m v).m_chassis :=
          congrArg (fun x => x.m_chassis) hsame
        have e2 : m3.m_sprocket_L = (bindParts m v).m_sprocket_L :=
          congrArg (fun x => x.m_sprocket_L) hsame
        have e3 : m3.m_sprocket_R = (bindParts m v).m_sprocket_R :=
          congrArg (fun x => x.m_sprocket_R) hsame
        have e4 : m3.m_idler_L = (bindParts m v).m_idler_L :=
          congrArg (fun x => x.m_idler_L) hsame
        have e5 : m3.m_idler_R = (bindParts m v).m_idler_R :=
          congrArg (fun x => x.m_idler_R) hsame
        have e6 : m3.m_shoe_L = (bindParts m v).m_shoe_L :=
          congrArg (fun x => x.m_shoe_L) hsame
        have e7 : m3.m_shoe_R = (bindParts m v).m_shoe_R :=
          congrArg (fun x => x.m_shoe_R) hsame
        simp only [handles, e1, e2, e3, e4, e5, e6, e7]
      have hi : m3.m_initialized = (bindParts m v).m_initialized :=
        congrArg (fun x => x.m_initialized) hsame
      simp only [Option.map_some', Option.some.injEq] at h
      subst h
      dsimp only
      split_ifs
      · exact ⟨hh, hi⟩
      · exact ⟨hh, hi⟩

/-- `Process` completes when the flags are empty or every flagged part is
bound after the binding step. -/
theorem Process_total (m : ChTrackContactManager) (v : ChTrackedVehicle)
    (h : m.m_flags = 0 ∨ FlaggedBound (bindParts m v)) : ∃ r, Process m v = some r := by
  by_cases hf : m.m_flags = 0
  · have hf1 : (bindParts m v).m_flags = 0 := (bindParts_frame m v).1.trans hf
    exact ⟨⟨bindParts m v, []⟩, by unfold Process; simp [hf1]⟩
  · rcases h with h | h
    · exact absurd h hf
    · obtain ⟨m3, h3⟩ := foldReport_total v.contacts _
        (@FlaggedBound_of_same (bindParts m v) (clearLists (bindParts m v)) rfl h)
      rw [Process_eq m v hf, h3]
      exact ⟨_, rfl⟩

/-- C17 (counterexample): on the first `Process` call of a fresh manager
(monitored index 0 on both sides) with a vehicle whose left track assembly has
one shoe and whose right track assembly has none, the left shoe handle is left
unbound although the left assembly has more shoes than the left index. -/
theorem left_shoe_unbound_despite_enough_shoes :
    ((halfShodVehicle []).GetTrackAssembly VehicleSide.LEFT).shoes.length >
        ChTrackContactManager.new.m_shoe_index_L ∧
    ∃ m', Process ChTrackContactManager.new (halfShodVehicle []) = some ⟨m', []⟩ ∧
      m'.m_initialized = true ∧ m'.m_shoe_L = none :=
  ⟨by decide, _, rfl, rfl, rfl⟩

/-- C17 (amended): on the first `Process` call (manager not initialised, shoe
handles null as constructed) each shoe handle ends up bound if and only if BOTH
track assemblies have more shoes than the monitored index of their side, and
then to the shoe of its own assembly at its own index; afterwards the manager
is initialised. On a later call (manager initialised), with any vehicle, all
seven handles are left as they were. `Process` completes whenever the flags are
empty or every flagged part is bound after the binding step. -/
theorem shoes_bound_jointly (m : ChTrackContactManager) (v : ChTrackedVehicle) :
    (m.m_initialized = false → m.m_shoe_L = none → m.m_shoe_R = none →
      ∀ r, Process m v = some r →
        (r.manager.m_shoe_L ≠ none ↔ EnoughShoes m v) ∧
        (r.manager.m_shoe_R ≠ none ↔ EnoughShoes m v) ∧
        (EnoughShoes m v →
          r.manager.m_shoe_L =
            (v.GetTrackAssembly VehicleSide.LEFT).shoes[m.m_shoe_index_L]? ∧
          r.manager.m_shoe_R =
            (v.GetTrackAssembly VehicleSide.RIGHT).shoes[m.m_shoe_index_R]?) ∧
        r.manager.m_initialized = true) ∧
    (m.m_initialized = true →
      ∀ r, Process m v = some r →
        handles r.manager = handles m ∧ r.manager.m_initialized = true) ∧
    (m.m_flags = 0 ∨ FlaggedBound (bindParts m v) → ∃ r, Process m v = some r) := by
  refine ⟨?_, ?_, Process_total m v⟩
  · intro hi hL hR r hr
    obtain ⟨hh, hinit⟩ := Process_handles m v r hr
    simp only [handles, List.cons.injEq, and_true] at hh
    obtain ⟨_, _, _, _, _, h6, h7⟩ := hh
    rw [h6, h7, hinit]
    unfold bindParts
    by_cases hs : EnoughShoes m v
    · have hs' := hs
      unfold EnoughShoes at hs'
      have e1 : m.m_shoe_index_L < (v.GetTrackAssembly VehicleSide.LEFT).shoes.length := hs'.1
      have e2 : m.m_shoe_index_R < (v.GetTrackAssembly VehicleSide.RIGHT).shoes.length := hs'.2
      simp [hi, hs, hs', List.getElem?_eq_getElem e1, List.getElem?_eq_getElem e2]
    · have hs' := hs
      unfold EnoughShoes at hs'
      simp [hi, hs, hs', hL, hR]
  · intro hi r hr
    obtain ⟨hh, hinit⟩ := Process_handles m v r hr
    have hb : bindParts m v = m := by
      unfold bindParts
      simp [hi]
    rw [hb] at hh hinit
    exact ⟨hh, hinit.trans hi⟩

/-- C17 (witness): the first call of a fresh manager on the sample vehicle (one
shoe per side) binds both shoe handles, to the bodies 5 and 6. -/
theorem shoes_bound_jointly_witness :
    Process ChTrackContactManager.new (sampleVehicle []) =
        some ⟨bindParts ChTrackContactManager.new (sampleVehicle []), []⟩ ∧
      (bindParts ChTrackContactManager.new (sampleVehicle [])).m_shoe_L = some 5 ∧
      (bindParts ChTrackContactManager.new (sampleVehicle [])).m_shoe_R = some 6 :=
  ⟨rfl,
   ((shoes_bound_jointly ChTrackContactManager.new (sampleVehicle [])).1 rfl rfl rfl
      ⟨bindParts ChTrackContactManager.new (sampleVehicle []), []⟩ rfl).2.2.1 (by decide)⟩

end ChTrackContactManager

namespace ChTrackContactManager

/-- A hull / sprocket / idler block with a bound handle appends the owed
records when its flag is set and nothing otherwise. -/
theorem plainBlock_bound (flag : Bool) (h : Nat) (c : ReportedContact) (l : List ContactInfo) :
    plainBlock flag (some h) c l = some (l ++ if flag = true then owedPlain h c else []) := by
  cases flag <;> simp [plainBlock, pushMatching_eq, owedPlain]

/-- A shoe block with bound shoe and sprocket handles appends the owed records
when its flag is set and nothing otherwise. -/
theorem shoeBlock_bound (flag : Bool) (s g : Nat) (c : ReportedContact)
    (l : List ContactInfo) :
    shoeBlock flag (some s) (some g) c l =
      some (l ++ if flag = true then owedShoe s g c else []) := by
  cases flag
  · simp [shoeBlock]
  · simp only [shoeBlock, if_true, pushShoe, shoeCond, owedShoe, Option.bind_eq_bind,
      Option.some_bind, Option.pure_def]
    split_ifs <;> simp_all

/-- With all seven handles bound, a resolved contact appends to each list the
records owed to its part when the part's flag is set. -/
theorem OnReportContact_bound (m : ChTrackContactManager) (c : ReportedContact)
    (b : BoundBodies) (hb : BoundTo m b) (hr : c.resolved) :
    OnReportContact m c =
      some ({ m with
        m_chassis_contacts := m.m_chassis_contacts ++
          (if m.IsFlagSet TrackedCollisionFlag.CHASSIS = true then owedPlain b.chassis c
            else [])
        m_sprocket_L_contacts := m.m_sprocket_L_contacts ++
          (if m.IsFlagSet TrackedCollisionFlag.SPROCKET_LEFT = true then
            owedPlain b.sprocket_L c else [])
        m_sprocket_R_contacts := m.m_sprocket_R_contacts ++
          (if m.IsFlagSet TrackedCollisionFlag.SPROCKET_RIGHT = true then
            owedPlain b.sprocket_R c else [])
        m_shoe_L_contacts := m.m_shoe_L_contacts ++
          (if m.IsFlagSet TrackedCollisionFlag.SHOES_LEFT = true then
            owedShoe b.shoe_L b.sprocket_L c else [])
        m_shoe_R_contacts := m.m_shoe_R_contacts ++
          (if m.IsFlagSet TrackedCollisionFlag.SHOES_RIGHT = true then
            owedShoe b.shoe_R b.sprocket_R c else [])
        m_idler_L_contacts := m.m_idler_L_contacts ++
          (if m.IsFlagSet TrackedCollisionFlag.IDLER_LEFT = true then
            owedPlain b.idler_L c else [])
        m_idler_R_contacts := m.m_idler_R_contacts ++
          (if m.IsFlagSet TrackedCollisionFlag.IDLER_RIGHT = true then
            owedPlain b.idler_R c else []) }, true) := by
  obtain ⟨h1, h2, h3, h4, h5, h6, h7⟩ := hb
  rw [OnReportContact_resolved m c hr, h1, h2, h3, h4, h5, h6, h7]
  simp only [plainBlock_bound, shoeBlock_bound, Option.some_bind]

/-- The records owed to a hull / sprocket / idler part are one per matching
side. -/
theorem owedPlain_length (h : Nat) (c : ReportedContact) :
    (owedPlain h c).length = matchCount c.modA h + matchCount c.modB h := by
  unfold owedPlain matchCount
  split_ifs <;> rfl

/-- The records owed to a shoe part are at most one per matching side. -/
theorem owedShoe_length_le (s g : Nat) (c : ReportedContact) :
    (owedShoe s g c).length ≤ matchCount c.modA s + matchCount c.modB s := by
  unfold owedShoe matchCount
  split_ifs <;> simp_all

/-- A hull / sprocket / idler part is owed a record only if its body is on one
side of the contact. -/
theorem owedPlain_ne_nil {h : Nat} {c : ReportedContact} (hne : owedPlain h c ≠ []) :
    c.modA = ChContactable.body h ∨ c.modB = ChContactable.body h := by
  unfold owedPlain at hne
  by_contra hcon
  push_neg at hcon
  simp [hcon.1, hcon.2] at hne

/-- A shoe part is owed a record only if its body is on one side of the
contact. -/
theorem owedShoe_ne_nil {s g : Nat} {c : ReportedContact} (hne : owedShoe s g c ≠ []) :
    c.modA = ChContactable.body s ∨ c.modB = ChContactable.body s := by
  unfold owedShoe at hne
  by_contra hcon
  push_neg at hcon
  simp [hcon.1, hcon.2] at hne

/-- A contactable matches none of a list of bodies it differs from. -/
theorem matchCount_sum_zero (x : ChContactable) (l : List Nat)
    (h : ∀ k ∈ l, x ≠ ChContactable.body k) : (l.map (matchCount x)).sum = 0 := by
  induction l with
  | nil => rfl
  | cons k ks ih =>
    have hk : matchCount x k = 0 := by
      unfold matchCount
      rw [if_neg (h k (List.mem_cons_self k ks))]
    rw [List.map_cons, List.sum_cons, hk, ih (fun j hj => h j (List.mem_cons_of_mem k hj))]

/-- A contactable is at most one of a list of pairwise distinct bodies. -/
theorem matchCount_list_le_one (x : ChContactable) (l : List Nat) (hd : l.Nodup) :
    (l.map (matchCount x)).sum ≤ 1 := by
  induction l with
  | nil => simp
  | cons k ks ih =>
    rw [List.nodup_cons] at hd
    rw [List.map_cons, List.sum_cons]
    by_cases hx : x = ChContactable.body k
    · have hz : (ks.map (matchCount x)).sum = 0 := by
        apply matchCount_sum_zero
        intro j hj hxj
        rw [hx] at hxj
        cases hxj
        exact hd.1 hj
      rw [hz]
      unfold matchCount
      rw [if_pos hx]
    · have hk : matchCount x k = 0 := by
        unfold matchCount
        rw [if_neg hx]
      rw [hk, zero_add]
      exact ih hd.2

/-- A contactable is at most one of seven pairwise distinct bound bodies. -/
theorem matchCount_sum_le_one (x : ChContactable) (b : BoundBodies) (hd : b.all.Nodup) :
    matchCount x b.chassis + matchCount x b.sprocket_L + matchCount x b.sprocket_R +
      matchCount x b.idler_L + matchCount x b.idler_R + matchCount x b.shoe_L +
      matchCount x b.shoe_R ≤ 1 := by
  have h := matchCount_list_le_one x b.all hd
  simp only [BoundBodies.all, List.map_cons, List.map_nil, List.sum_cons, List.sum_nil] at h
  omega

/-- The body of every part is one of the seven bound bodies, at the position of
the part. -/
theorem Part.body_mem (b : BoundBodies) (P : Part) : P.body b ∈ b.all := by
  cases P <;> simp [Part.body, BoundBodies.all]

/-- No contactable is the body of two different parts when the seven bodies are
pairwise distinct. -/
theorem Part.body_ne (b : BoundBodies) (hd : b.all.Nodup) (P Q : Part) (hPQ : P ≠ Q) :
    P.body b ≠ Q.body b := by
  simp only [BoundBodies.all, List.nodup_cons, List.mem_cons, List.mem_singleton, not_or,
    List.not_mem_nil, not_false_eq_true, List.nodup_nil, and_true] at hd
  obtain ⟨⟨a1, a2, a3, a4, a5, a6⟩, ⟨b2, b3, b4, b5, b6⟩, ⟨c3, c4, c5, c6⟩, ⟨d4, d5, d6⟩,
    ⟨e5, e6⟩, f6⟩ := hd
  cases P <;> cases Q <;> dsimp only [Part.body] <;>
    first
    | exact absurd rfl hPQ
    | assumption
    | exact Ne.symm (by assumption)

/-- What a hull / sprocket / idler block appends is at most one record per
matching side. -/
theorem appended_plain_le (flag : Bool) (h : Nat) (c : ReportedContact) :
    (if flag = true then owedPlain h c else []).length ≤
      matchCount c.modA h + matchCount c.modB h := by
  cases flag
  · simp
  · simp [owedPlain_length]

/-- What a shoe block appends is at most one record per matching side. -/
theorem appended_shoe_le (flag : Bool) (s g : Nat) (c : ReportedContact) :
    (if flag = true then owedShoe s g c else []).length ≤
      matchCount c.modA s + matchCount c.modB s := by
  cases flag
  · simp
  · simpa using owedShoe_length_le s g c

/-- A hull / sprocket / idler list changes only if the part's body is on one
side of the contact. -/
theorem changed_plain {flag : Bool} {h : Nat} {c : ReportedContact} {l : List ContactInfo}
    (hne : l ++ (if flag = true then owedPlain h c else []) ≠ l) :
    c.modA = ChContactable.body h ∨ c.modB = ChContactable.body h := by
  apply owedPlain_ne_nil
  intro hnil
  apply hne
  cases flag <;> simp [hnil]

/-- A shoe list changes only if the part's body is on one side of the
contact. -/
theorem changed_shoe {flag : Bool} {s g : Nat} {c : ReportedContact} {l : List ContactInfo}
    (hne : l ++ (if flag = true then owedShoe s g c else []) ≠ l) :
    c.modA = ChContactable.body s ∨ c.modB = ChContactable.body s := by
  apply owedShoe_ne_nil (g := g)
  intro hnil
  apply hne
  cases flag <;> simp [hnil]

/-- C18: with the seven handles bound to pairwise distinct bodies, every
`OnReportContact` call completes, appends at most 2 records over the seven
lists, and if it changes the lists of two different parts then body A and body
B are different and are the bodies of these two parts, one each. -/
theorem at_most_two_records (m : ChTrackContactManager) (c : ReportedContact)
    (b : BoundBodies) (hb : BoundTo m b) (hd : b.all.Nodup) :
    ∃ m', OnReportContact m c = some (m', true) ∧
      totalRecords m' ≤ totalRecords m + 2 ∧
      ∀ P Q : Part, P ≠ Q → P.list m' ≠ P.list m → Q.list m' ≠ Q.list m →
        c.modA ≠ c.modB ∧
        ((c.modA = ChContactable.body (P.body b) ∧ c.modB = ChContactable.body (Q.body b)) ∨
          (c.modA = ChContactable.body (Q.body b) ∧
            c.modB = ChContactable.body (P.body b))) := by
  by_cases hr : c.resolved
  · refine ⟨_, OnReportContact_bound m c b hb hr, ?_, ?_⟩
    · have sA := matchCount_sum_le_one c.modA b hd
      have sB := matchCount_sum_le_one c.modB b hd
      have k1 := appended_plain_le (m.IsFlagSet TrackedCollisionFlag.CHASSIS) b.chassis c
      have k2 := appended_plain_le (m.IsFlagSet TrackedCollisionFlag.SPROCKET_LEFT)
        b.sprocket_L c
      have k3 := appended_plain_le (m.IsFlagSet TrackedCollisionFlag.SPROCKET_RIGHT)
        b.sprocket_R c
      have k4 := appended_plain_le (m.IsFlagSet TrackedCollisionFlag.IDLER_LEFT) b.idler_L c
      have k5 := appended_plain_le (m.IsFlagSet TrackedCollisionFlag.IDLER_RIGHT) b.idler_R c
      have k6 := appended_shoe_le (m.IsFlagSet TrackedCollisionFlag.SHOES_LEFT) b.shoe_L
        b.sprocket_L c
      have k7 := appended_shoe_le (m.IsFlagSet TrackedCollisionFlag.SHOES_RIGHT) b.shoe_R
        b.sprocket_R c
      simp only [totalRecords, List.length_append]
      omega
    · have key : ∀ P : Part,
          P.list { m with
            m_chassis_contacts := m.m_chassis_contacts ++
              (if m.IsFlagSet TrackedCollisionFlag.CHASSIS = true then owedPlain b.chassis c
                else [])
            m_sprocket_L_contacts := m.m_sprocket_L_contacts ++
              (if m.IsFlagSet TrackedCollisionFlag.SPROCKET_LEFT = true then
                owedPlain b.sprocket_L c else [])
            m_sprocket_R_contacts := m.m_sprocket_R_contacts ++
              (if m.IsFlagSet TrackedCollisionFlag.SPROCKET_RIGHT = true then
                owedPlain b.sprocket_R c else [])
            m_shoe_L_contacts := m.m_shoe_L_contacts ++
              (if m.IsFlagSet TrackedCollisionFlag.SHOES_LEFT = true then
                owedShoe b.shoe_L b.sprocket_L c else [])
            m_shoe_R_contacts := m.m_shoe_R_contacts ++
              (if m.IsFlagSet TrackedCollisionFlag.SHOES_RIGHT = true then
                owedShoe b.shoe_R b.sprocket_R c else [])
            m_idler_L_contacts := m.m_idler_L_contacts ++
              (if m.IsFlagSet TrackedCollisionFlag.IDLER_LEFT = true then
                owedPlain b.idler_L c else [])
            m_idler_R_contacts := m.m_idler_R_contacts ++
              (if m.IsFlagSet TrackedCollisionFlag.IDLER_RIGHT = true then
                owedPlain b.idler_R c else []) } ≠ P.list m →
          c.modA = ChContactable.body (P.body b) ∨ c.modB = ChContactable.body (P.body b) := by
        intro P
        cases P
        · exact changed_plain
        · exact changed_plain
        · exact changed_plain
        · exact changed_plain
        · exact changed_plain
        · exact changed_shoe
        · exact changed_shoe
      intro P Q hPQ hP hQ
      have hne := Part.body_ne b hd P Q hPQ
      rcases key P hP with hPA | hPB <;> rcases key Q hQ with hQA | hQB
      · exfalso
        rw [hPA] at hQA
        exact hne (ChContactable.body.inj hQA)
      · refine ⟨?_, Or.inl ⟨hPA, hQB⟩⟩
        rw [hPA, hQB]
        exact fun h => hne (ChContactable.body.inj h)
      · refine ⟨?_, Or.inr ⟨hQA, hPB⟩⟩
        rw [hQA, hPB]
        exact fun h => hne (ChContactable.body.inj h).symm
      · exfalso
        rw [hPB] at hQB
        exact hne (ChContactable.body.inj hQB)
  · refine ⟨m, OnReportContact_not_resolved m c hr, Nat.le_add_right _ _, ?_⟩
    intro P Q _ hP
    exact absurd rfl hP

/-- C18 (witness): on the sample manager (every flag set, bodies 0 to 6) the
resolved contact between the hull (body 0) and the left sprocket (body 1)
appends two records in all, one to each of the two lists. -/
theorem at_most_two_records_witness :
    ∃ m', OnReportContact sampleManager
        (sampleContact (ChContactable.body 0) (ChContactable.body 1)) = some (m', true) ∧
      totalRecords m' ≤ totalRecords sampleManager + 2 ∧
      totalRecords m' = 2 ∧
      Part.hull.list m' ≠ Part.hull.list sampleManager ∧
      Part.sprocket_L.list m' ≠ Part.sprocket_L.list sampleManager ∧
      (sampleContact (ChContactable.body 0) (ChContactable.body 1)).modA ≠
        (sampleContact (ChContactable.body 0) (ChContactable.body 1)).modB := by
  obtain ⟨m', h, h1, h2⟩ := at_most_two_records sampleManager
    (sampleContact (ChContactable.body 0) (ChContactable.body 1)) sampleBodies
    (by decide) (by decide)
  have e : OnReportContact sampleManager
      (sampleContact (ChContactable.body 0) (ChContactable.body 1)) =
      some ({ sampleManager with
        m_chassis_contacts :=
          [mkInfo ⟨1, 0, 0⟩ (sampleContact (ChContactable.body 0) (ChContactable.body 1))]
        m_sprocket_L_contacts :=
          [mkInfo ⟨0, 1, 0⟩ (sampleContact (ChContactable.body 0) (ChContactable.body 1))] },
        true) := by decide
  rw [e] at h
  cases h
  have hP : Part.hull.list { sampleManager with
        m_chassis_contacts :=
          [mkInfo ⟨1, 0, 0⟩ (sampleContact (ChContactable.body 0) (ChContactable.body 1))]
        m_sprocket_L_contacts :=
          [mkInfo ⟨0, 1, 0⟩ (sampleContact (ChContactable.body 0) (ChContactable.body 1))] } ≠
      Part.hull.list sampleManager := by decide
  have hQ : Part.sprocket_L.list { sampleManager with
        m_chassis_contacts :=
          [mkInfo ⟨1, 0, 0⟩ (sampleContact (ChContactable.body 0) (ChContactable.body 1))]
        m_sprocket_L_contacts :=
          [mkInfo ⟨0, 1, 0⟩ (sampleContact (ChContactable.body 0) (ChContactable.body 1))] } ≠
      Part.sprocket_L.list sampleManager := by decide
  exact ⟨_, e, h1, by decide, hP, hQ,
    (h2 Part.hull Part.sprocket_L (by decide) hP hQ).1⟩

end ChTrackContactManager

end vehicle

end chrono
